import Mathlib

/-!
# Verification of the calendar-assistant scheduling and tool-dispatch core

Shallow embedding of the meeting-availability engine (`SchedulerService`),
the natural-language date recalculator, and the `ToolDispatcher` router of
the conversational calendar assistant, together with proofs and refutations
of the specification's testable properties.

## Modelling conventions

* Instants are natural numbers counting **minutes** since a local epoch;
  the epoch is chosen so that day index `0` (`t / 1440`) falls on a Sunday,
  making `(t / 1440) % 7` agree with JavaScript's `Date.getDay()`
  (Sunday = 0, Monday = 1, ..., Saturday = 6).
* `Date.now()` timestamps used by the duplicate-call cache are kept in
  **milliseconds**, as in the source.
* JavaScript `while` loops over time boundaries are embedded as maps over
  the explicit list of boundaries they enumerate, or as fuel-bounded
  recursion when the loop bound is evident from the source.
* Browser/externally-owned collaborators (Google-URL builders, e-mail
  template tables, locale formatting, the remote calendar REST call) are
  out of scope per the specification and enter the model as components of
  an explicit environment record; everything that is algorithmic in the
  repository is embedded concretely.
-/

namespace CalendarAssistant

/-- Contiguous-substring scan over character lists. -/
def containsSub : List Char → List Char → Bool
  | hay, sub =>
    sub.isPrefixOf hay ||
      match hay with
      | [] => false
      | _ :: t => containsSub t sub

/-- JavaScript `String.prototype.includes`: substring test. -/
def jsIncludes (s sub : String) : Bool :=
  containsSub s.data sub.data

/-- JavaScript `string || default`: the empty string is falsy. -/
def jsOrString (s : Option String) (d : String) : String :=
  match s with
  | some v => if v = "" then d else v
  | none => d

/-- Whitespace test of the regex character class `\s` (the classes that can
occur in chat text). -/
def isSpaceChar (c : Char) : Bool :=
  c = ' ' || c = '\t' || c = '\n' || c = '\r'

/-- JavaScript `String.prototype.toLowerCase`, embedded at the
character-list level. -/
def jsToLower (s : String) : String :=
  String.mk (s.data.map Char.toLower)

/-- JavaScript `String.prototype.trim`, embedded at the character-list
level. -/
def jsTrim (s : String) : String :=
  String.mk
    (((s.data.dropWhile isSpaceChar).reverse.dropWhile isSpaceChar).reverse)

/-- Split a character list at every occurrence of the separator, as
JavaScript `String.prototype.split` with a one-character separator does. -/
def splitOnChar (sep : Char) : List Char → List (List Char)
  | [] => [[]]
  | c :: cs =>
    let rest := splitOnChar sep cs
    if c = sep then
      [] :: rest
    else
      match rest with
      | h :: t => (c :: h) :: t
      | [] => [[c]]

/-- JavaScript `s.split(',')`. -/
def jsSplitComma (s : String) : List String :=
  (splitOnChar ',' s.data).map String.mk

/-! ## Data model (src/types.ts) -/

/-- `NormalizedEvent` from the repository's data model: a calendar event
with minute-resolution instants. -/
structure NormalizedEvent where
  id : String
  title : String
  description : String := ""
  location : String := ""
  startTime : Nat
  endTime : Nat
  duration : Nat
  attendees : List String := []
  organizer : String := ""
  isAllDay : Bool := false
  url : String := ""
deriving Repr, DecidableEq, Inhabited

/-- `TimeSlot` produced by the slot search.  The source field `end` is a
Lean keyword and is embedded as `stop`. -/
structure TimeSlot where
  start : Nat
  stop : Nat
  duration : Nat
  isAvailable : Bool
deriving Repr, DecidableEq, Inhabited

/-- `SchedulingConstraints`: the scheduler's working-day configuration
(`workingDays` holds `getDay()` codes, Sunday = 0). -/
structure SchedulingConstraints where
  minDuration : Nat := 15
  maxDuration : Nat := 480
  workingDays : List Nat := [1, 2, 3, 4, 5]
deriving Repr, DecidableEq

/-- Working window inside a day, in minutes from midnight: the parsed form
of the scheduler's `preferredTime : {start: "HH:MM", end: "HH:MM"}`. -/
structure WorkWindow where
  startMin : Nat
  endMin : Nat
deriving Repr, DecidableEq

/-! ## SchedulerService (src/modules/scheduler.ts) -/

/-- `SchedulerService.getEventsForDate`: events whose **start** falls on
the given calendar day (`setHours(0,0,0,0)` comparison becomes equality of
day indices `startTime / 1440`). -/
def getEventsForDate (events : List NormalizedEvent) (day : Nat) :
    List NormalizedEvent :=
  events.filter (fun event => event.startTime / 1440 == day)

/-- `SchedulerService.getBusySlots`: the (start, end) intervals of a list
of events. -/
def getBusySlots (events : List NormalizedEvent) : List (Nat × Nat) :=
  events.map (fun event => (event.startTime, event.endTime))

/-- `SchedulerService.isTimeSlotBusy`: `start < busy.end && end > busy.start`
for some busy interval. -/
def isTimeSlotBusy (slotStart slotStop : Nat) (busySlots : List (Nat × Nat)) :
    Bool :=
  busySlots.any (fun busy => slotStart < busy.2 && slotStop > busy.1)

/-- The start boundaries enumerated by the `while (currentTime < dayEnd)`
loop of `findFreeSlotsForDay`: `dayStart, dayStart+30, ...`, strictly below
`dayEnd`. -/
def slotBoundaries (dayStart dayEnd : Nat) : List Nat :=
  (List.range ((dayEnd - dayStart + 29) / 30)).map (fun k => dayStart + 30 * k)

/-- `SchedulerService.findFreeSlotsForDay`: every 30-minute boundary in the
working window (default 09:00–17:00) that fits the duration and does not
collide with an event that starts on this day yields an available slot. -/
def findFreeSlotsForDay (events : List NormalizedEvent) (day : Nat)
    (duration : Nat) (preferredTime : Option WorkWindow) : List TimeSlot :=
  let w := preferredTime.getD ⟨9 * 60, 17 * 60⟩
  let dayStart := day * 1440 + w.startMin
  let dayEnd := day * 1440 + w.endMin
  let dayEvents := getEventsForDate events day
  let busySlots := getBusySlots dayEvents
  (slotBoundaries dayStart dayEnd).filterMap (fun currentTime =>
    let slotEnd := currentTime + duration
    if slotEnd ≤ dayEnd && !(isTimeSlotBusy currentTime slotEnd busySlots) then
      some ⟨currentTime, slotEnd, duration, true⟩
    else
      none)

/-- `SchedulerService.findFreeSlots`: iterate the calendar days whose
instants `startDate + 1440·k` stay `≤ endDate`, skipping days outside
`constraints.workingDays`. -/
def findFreeSlots (constraints : SchedulingConstraints)
    (events : List NormalizedEvent) (duration : Nat)
    (startDate endDate : Nat) (preferredTime : Option WorkWindow) :
    List TimeSlot :=
  if startDate ≤ endDate then
    (List.range ((endDate - startDate) / 1440 + 1)).flatMap (fun k =>
      let day := (startDate + 1440 * k) / 1440
      if constraints.workingDays.contains (day % 7) then
        findFreeSlotsForDay events day duration preferredTime
      else
        [])
  else
    []

/-- Urgency levels of `suggestOptimalMeetingTimes`. -/
inductive Urgency where
  | low
  | medium
  | high
deriving Repr, DecidableEq

/-- Time-of-day preference of `suggestOptimalMeetingTimes`. -/
inductive PreferredTime where
  | morning
  | afternoon
  | evening
  | any
deriving Repr, DecidableEq

/-- `SchedulerService.isPreferredTime`. -/
def isPreferredTime (hour : Nat) (preferredTime : PreferredTime) : Bool :=
  match preferredTime with
  | .morning => 9 ≤ hour && hour < 12
  | .afternoon => 13 ≤ hour && hour < 17
  | .evening => 17 ≤ hour && hour < 19
  | .any => true

/-- The comparator of `SchedulerService.sortSlotsByPriority`, returning a
signed value exactly as the JavaScript comparator does.  Hours of day are
`(start % 1440) / 60`. -/
def slotComparator (urgency : Urgency) (preferredTime : Option PreferredTime)
    (a b : TimeSlot) : Int :=
  let dateDiff : Int := (a.start : Int) - (b.start : Int)
  if urgency = .high ∧ dateDiff.natAbs > 24 * 60 then
    dateDiff
  else
    let aHour := (a.start % 1440) / 60
    let bHour := (b.start % 1440) / 60
    match preferredTime with
    | some p =>
      if p ≠ .any then
        let aPreferred := isPreferredTime aHour p
        let bPreferred := isPreferredTime bHour p
        if aPreferred && !bPreferred then -1
        else if !aPreferred && bPreferred then 1
        else (aHour : Int) - (bHour : Int)
      else (aHour : Int) - (bHour : Int)
    | none => (aHour : Int) - (bHour : Int)

/-- `SchedulerService.sortSlotsByPriority`: a stable sort by the
comparator (JavaScript `Array.prototype.sort` is stable). -/
def sortSlotsByPriority (slots : List TimeSlot) (urgency : Urgency)
    (preferredTime : Option PreferredTime) : List TimeSlot :=
  slots.mergeSort (fun a b => slotComparator urgency preferredTime a b ≤ 0)

/-- The truncation bound of `suggestOptimalMeetingTimes`:
`urgency === 'high' ? 5 : urgency === 'medium' ? 3 : 2`. -/
def suggestionCount (urgency : Urgency) : Nat :=
  match urgency with
  | .high => 5
  | .medium => 3
  | .low => 2

/-- `SchedulerService.suggestOptimalMeetingTimes`: search the next 7 days
with the urgency-independent window, sort by priority and truncate. -/
def suggestOptimalMeetingTimes (constraints : SchedulingConstraints)
    (events : List NormalizedEvent) (nowMin : Nat) (duration : Nat)
    (preferredTime : Option PreferredTime) (urgency : Urgency) :
    List TimeSlot :=
  let endDate := nowMin + 7 * 1440
  let timePreference : WorkWindow :=
    match preferredTime with
    | some .morning => ⟨9 * 60, 12 * 60⟩
    | some .afternoon => ⟨13 * 60, 17 * 60⟩
    | some .evening => ⟨17 * 60, 19 * 60⟩
    | _ => ⟨9 * 60, 17 * 60⟩
  let allSlots := findFreeSlots constraints events duration nowMin endDate
    (some timePreference)
  let sortedSlots := sortSlotsByPriority allSlots urgency preferredTime
  sortedSlots.take (suggestionCount urgency)

/-- `SchedulerService.checkAvailability`: an event is a conflict when its
time interval overlaps `[startTime, endTime)` **or** it shares an attendee
with the (non-empty) requested attendee list. -/
def checkAvailability (events : List NormalizedEvent)
    (startTime endTime : Nat) (attendees : List String) :
    Bool × List NormalizedEvent :=
  let conflicts := events.filter (fun event =>
    let timeConflict := startTime < event.endTime && endTime > event.startTime
    let attendeeConflict := attendees.length > 0 &&
      attendees.any (fun attendee => event.attendees.contains attendee)
    timeConflict || attendeeConflict)
  (conflicts.isEmpty, conflicts)

/-! ## DateRecalculator (ToolDispatcher.shouldRecalculateDates /
parseNaturalLanguageDate, src/modules/toolDispatcher.ts) -/

/-- Digit test of the regex character class `\d`. -/
def isDigitChar (c : Char) : Bool := '0' ≤ c && c ≤ '9'

/-- Numeric value of a digit character. -/
def digitVal (c : Char) : Nat := c.toNat - '0'.toNat

/-- Consume `\s*`. -/
def dropSpaces : List Char → List Char
  | c :: cs => if isSpaceChar c then dropSpaces cs else c :: cs
  | [] => []

/-- Match the alternative `(am|pm)` at the head of the input (the message
has already been lowercased); `true` means `pm`. -/
def matchAmPm : List Char → Option Bool
  | 'a' :: 'm' :: _ => some false
  | 'p' :: 'm' :: _ => some true
  | _ => none

/-- Match the regex `/(\d{1,2})\s*(am|pm)/` at the current position,
with the engine's greedy-then-backtrack behaviour on `\d{1,2}`. -/
def matchTimeAt : List Char → Option (Nat × Bool)
  | c1 :: rest =>
    if isDigitChar c1 then
      match rest with
      | c2 :: rest2 =>
        if isDigitChar c2 then
          match matchAmPm (dropSpaces rest2) with
          | some pm => some (10 * digitVal c1 + digitVal c2, pm)
          | none =>
            match matchAmPm (dropSpaces rest) with
            | some pm => some (digitVal c1, pm)
            | none => none
        else
          match matchAmPm (dropSpaces rest) with
          | some pm => some (digitVal c1, pm)
          | none => none
      | [] => none
    else none
  | [] => none

/-- First match of the time regex in the message
(`message.match(/(\d{1,2})\s*(am|pm)/i)`). -/
def findTimeMatch : List Char → Option (Nat × Bool)
  | [] => none
  | c :: cs =>
    match matchTimeAt (c :: cs) with
    | some r => some r
    | none => findTimeMatch cs

/-- Take the maximal digit run `\d+` starting here, returning its numeric
value (as `parseInt` would) and the remaining input. -/
def takeDigitRun (acc : Nat) : List Char → Nat × List Char
  | c :: cs =>
    if isDigitChar c then takeDigitRun (10 * acc + digitVal c) cs
    else (acc, c :: cs)
  | [] => (acc, [])

/-- Match the regex `/(\d+)\s*hour/` at the current position. -/
def matchDurationAt : List Char → Option Nat
  | c :: cs =>
    if isDigitChar c then
      let r := takeDigitRun (digitVal c) cs
      if List.isPrefixOf "hour".data (dropSpaces r.2) then some r.1 else none
    else none
  | [] => none

/-- First match of the duration regex in the message
(`message.match(/(\d+)\s*hour/)`). -/
def findDurationMatch : List Char → Option Nat
  | [] => none
  | c :: cs =>
    match matchDurationAt (c :: cs) with
    | some r => some r
    | none => findDurationMatch cs

/-- The lowercase weekday names scanned by `parseNaturalLanguageDate`,
indexed by `getDay()` code. -/
def daysOfWeek : List String :=
  ["sunday", "monday", "tuesday", "wednesday", "thursday", "friday",
   "saturday"]

/-- The first weekday (in `daysOfWeek` order) whose name occurs in the
lowercased message, as in the source's `for` loop with `break`. -/
def findTargetDay (message : String) : Option Nat :=
  (List.range 7).find? (fun i => jsIncludes message (daysOfWeek.getD i ""))

/-- The `while (targetDate.getDay() !== targetDay)` walk of the `isNext`
branch: advance day-by-day **starting from today** until the weekday code
matches.  The JavaScript loop terminates within 6 steps whenever
`targetDay < 7`, so fuel 7 makes the embedding total without changing its
value on any reachable input. -/
def walkToNextDay (targetDay : Nat) : Nat → Nat → Nat
  | 0, day => day
  | fuel + 1, day =>
    if day % 7 = targetDay then day else walkToNextDay targetDay fuel (day + 1)

/-- The hour adjustment applied to the regex match:
`if (isPM && hour !== 12) hour += 12; if (!isPM && hour === 12) hour = 0`. -/
def adjustHour (hour : Nat) (isPM : Bool) : Nat :=
  if isPM && hour ≠ 12 then hour + 12
  else if !isPM && hour = 12 then 0
  else hour

/-- `ToolDispatcher.parseNaturalLanguageDate`: extract a weekday, a
`H am|pm` time and an hour duration (default 1) from the user message and
resolve them against the clock `nowMin` (minutes).  `setHours` overflow
normalization makes both the start and the end equal to the target day's
midnight plus the (possibly ≥ 24) hour count, which the minute arithmetic
below reproduces exactly. -/
def parseNaturalLanguageDate (nowMin : Nat) (userMessage : String) :
    Option (Nat × Nat) :=
  let message := jsToLower userMessage
  match findTargetDay message with
  | none => none
  | some targetDay =>
    let isNext := jsIncludes message "next"
    match findTimeMatch message.data with
    | none => none
    | some (rawHour, isPM) =>
      let hour := adjustHour rawHour isPM
      let duration := (findDurationMatch message.data).getD 1
      let today := nowMin / 1440
      let targetDate :=
        if isNext then
          walkToNextDay targetDay 7 today
        else
          today + (targetDay + 7 - today % 7) % 7
      let startMin := targetDate * 1440 + hour * 60
      some (startMin, startMin + duration * 60)

/-- The relative-date keywords of `shouldRecalculateDates`. -/
def naturalLanguageIndicators : List String :=
  ["next", "tomorrow", "today", "this", "upcoming", "following",
   "monday", "tuesday", "wednesday", "thursday", "friday", "saturday",
   "sunday"]

/-- `ToolDispatcher.shouldRecalculateDates`: recalculate when the proposed
start is in the past, is a known training-artifact literal, or the user
message contains a relative-date keyword.  `startIso` is the LLM-proposed
ISO string and `startInstant` the instant `new Date(startIso)` denotes. -/
def shouldRecalculateDates (nowMin : Nat) (startIso : String)
    (startInstant : Nat) (userMessage : Option String) : Bool :=
  match userMessage with
  | none => false
  | some msg =>
    if startInstant < nowMin then true
    else if jsIncludes startIso "2024-01-10" || jsIncludes startIso "2024-01-11" then true
    else naturalLanguageIndicators.any (fun indicator =>
      jsIncludes (jsToLower msg) (jsToLower indicator))

/-! ## ICSGenerator (src/modules/ics.ts) -/

/-- List-level `Array.prototype.join(sep)`. -/
def joinSep (sep : String) : List String → String
  | [] => ""
  | [a] => a
  | a :: rest => a ++ sep ++ joinSep sep rest

/-- Civil date (year, month, day) of a day count since 1970-01-01,
proleptic Gregorian (the standard era-based conversion used to embed
`Date.toISOString`). -/
def civilFromDays (days : Nat) : Nat × Nat × Nat :=
  let z := days + 719468
  let era := z / 146097
  let doe := z % 146097
  let yoe := (doe - doe / 1460 + doe / 36524 - doe / 146096) / 365
  let y := yoe + era * 400
  let doy := doe - (365 * yoe + yoe / 4 - yoe / 100)
  let mp := (5 * doy + 2) / 153
  let d := doy - (153 * mp + 2) / 5 + 1
  let m := if mp < 10 then mp + 3 else mp - 9
  (if m ≤ 2 then y + 1 else y, m, d)

/-- Zero-padding to two digits. -/
def pad2 (n : Nat) : String :=
  if n < 10 then "0" ++ toString n else toString n

/-- `ICSGenerator.formatDate`: the ISO timestamp with `-`, `:` and the
millisecond part stripped (`YYYYMMDDTHHMMSSZ`); instants have minute
resolution, so seconds are `00`. -/
def formatICSDate (t : Nat) : String :=
  let dayPart := civilFromDays (t / 1440)
  let rem := t % 1440
  toString dayPart.1 ++ pad2 dayPart.2.1 ++ pad2 dayPart.2.2 ++ "T" ++
    pad2 (rem / 60) ++ pad2 (rem % 60) ++ "00Z"

/-- The `YYYY-MM-DD` part of `Date.toISOString` (used in generated
filenames). -/
def isoDatePart (t : Nat) : String :=
  let dayPart := civilFromDays (t / 1440)
  toString dayPart.1 ++ "-" ++ pad2 dayPart.2.1 ++ "-" ++ pad2 dayPart.2.2

/-- One character of `ICSGenerator.escapeText` (the source's sequential
`replace` chain touches disjoint characters, so it equals this
character-wise expansion). -/
def escapeChar (c : Char) : List Char :=
  if c = '\\' then ['\\', '\\']
  else if c = ';' then ['\\', ';']
  else if c = ',' then ['\\', ',']
  else if c = '\n' then ['\\', 'n']
  else if c = '\r' then ['\\', 'r']
  else [c]

/-- `ICSGenerator.escapeText`. -/
def escapeText (s : String) : String :=
  String.mk (s.data.flatMap escapeChar)

/-- `ICSGenerator.generateEventICS`: the `VEVENT` block, with the optional
lines exactly when the corresponding field is truthy. -/
def generateEventICS (nowMin : Nat) (event : NormalizedEvent) : String :=
  let lines :=
    ["BEGIN:VEVENT",
     "UID:" ++ event.id ++ "@calendar-assistant",
     "DTSTAMP:" ++ formatICSDate nowMin,
     "DTSTART:" ++ formatICSDate event.startTime,
     "DTEND:" ++ formatICSDate event.endTime,
     "SUMMARY:" ++ escapeText event.title]
    ++ (if event.description ≠ "" then
          ["DESCRIPTION:" ++ escapeText event.description] else [])
    ++ (if event.location ≠ "" then
          ["LOCATION:" ++ escapeText event.location] else [])
    ++ event.attendees.map (fun attendee =>
         "ATTENDEE;ROLE=REQ-PARTICIPANT;PARTSTAT=NEEDS-ACTION;RSVP=TRUE:mailto:"
           ++ attendee)
    ++ (if event.organizer ≠ "" then
          ["ORGANIZER;CN=" ++ escapeText event.organizer ++ ":mailto:" ++
            event.organizer] else [])
    ++ (if event.url ≠ "" then ["URL:" ++ event.url] else [])
    ++ ["END:VEVENT"]
  joinSep "\r\n" lines

/-- `ICSGenerator.generateSingleEventICS`: a full `VCALENDAR` wrapping one
event. -/
def generateSingleEventICS (nowMin : Nat) (event : NormalizedEvent) :
    String :=
  joinSep "\r\n"
    ["BEGIN:VCALENDAR",
     "VERSION:2.0",
     "PRODID:-//Calendar Assistant//EN",
     "CALSCALE:GREGORIAN",
     "METHOD:PUBLISH",
     generateEventICS nowMin event,
     "END:VCALENDAR"]

/-- One character of the filename sanitizer
`title.replace(/[^a-z0-9]/gi, '_')`. -/
def sanitizeFilenameChar (c : Char) : Char :=
  if ('a' ≤ c && c ≤ 'z') || ('A' ≤ c && c ≤ 'Z') || ('0' ≤ c && c ≤ '9')
  then c else '_'

/-- The generated ICS filename
`${title.replace(/[^a-z0-9]/gi, '_').toLowerCase()}_${date}.ics`. -/
def makeIcsFilename (title : String) (start : Nat) : String :=
  String.mk ((title.data.map sanitizeFilenameChar).map Char.toLower) ++ "_"
    ++ isoDatePart start ++ ".ics"

/-! ## ToolDispatcher: argument bag, cache and result model
(src/modules/toolDispatcher.ts)

Result values carry every field the specification's properties mention;
purely cosmetic display strings (the fixed `message`/`instructions`
fields) are not carried.  Browser-owned collaborators (URL builders, the
e-mail template table, locale formatting, the remote Google Calendar
call) enter through an explicit environment, as the specification places
them outside the core. -/

/-- An untyped (LLM-produced) argument value: a string, an array of
strings, or absent. -/
inductive JSArg where
  | str (s : String)
  | list (l : List String)
  | undef
deriving Repr, DecidableEq

/-- JavaScript truthiness of an argument value (arrays are always truthy,
the empty string is falsy). -/
def jsTruthy : JSArg → Bool
  | .undef => false
  | .str s => s ≠ ""
  | .list _ => true

/-- String interpolation of an argument value (arrays join with commas). -/
def jsArgToString : JSArg → String
  | .str s => s
  | .list l => joinSep "," l
  | .undef => "undefined"

/-- Falsiness of an optional string parameter (`undefined` or `''`). -/
def jsFalsyStr : Option String → Bool
  | none => true
  | some s => s = ""

/-- An ISO date-time argument: the raw string the LLM produced together
with the instant `new Date(raw)` denotes (ISO parsing itself is a
browser boundary). -/
structure DateParam where
  iso : String := ""
  instantMin : Nat := 0
deriving Repr, DecidableEq

/-- The argument bag of a tool call after JSON decoding, one optional
field per parameter any registered operation declares. -/
structure ToolParams where
  timeRange : String := ""
  maxResults : Nat := 10
  toField : JSArg := .undef
  emailType : String := ""
  context : Option String := none
  tone : String := "professional"
  userMessage : Option String := none
  eventTitle : String := ""
  attendeeEmail : String := ""
  title : String := ""
  duration : Nat := 30
  attendees : JSArg := .undef
  preferredTime : PreferredTime := .any
  urgency : Urgency := .medium
  location : Option String := none
  description : Option String := none
  startTime : DateParam := {}
  endTime : DateParam := {}
  reportType : String := ""
  includeRecommendations : Bool := true
  templateType : String := ""
  focus : String := ""
  eventIds : List String := []
  filename : String := "calendar.ics"
deriving Repr, DecidableEq

/-- `EmailTemplate`: a drafted e-mail. -/
structure EmailTemplate where
  toAddr : String
  subject : String
  body : String
deriving Repr, DecidableEq

/-- Per-recipient compose links of a fan-out draft. -/
structure RecipientLinks where
  recipient : String
  gmailComposeUrl : String
  mailtoUrl : String
deriving Repr, DecidableEq

/-- One proposal of `suggestMeetingTimes`. -/
structure MeetingProposal where
  slotNumber : Nat
  start : Nat
  stop : Nat
  duration : Nat
  isAvailable : Bool
  calendarUrl : String
  icsContent : String
  icsFilename : String
deriving Repr, DecidableEq

/-- `calculateBasicStats` output. -/
structure BasicStats where
  totalEvents : Nat
  totalMinutes : Nat
  totalHours : Nat
  mostActiveDay : String
  mostActiveTime : String
deriving Repr, DecidableEq

/-- Structured result of a successful tool call. -/
inductive ToolValue where
  | fetchedEvents (events : List NormalizedEvent) (count : Nat)
      (timeRange : String)
  | singleEmailDraft (emailType recipient subject body gmailComposeUrl
      mailtoUrl : String)
  | multipleEmailDrafts (emailTemplates : List EmailTemplate)
      (links : List RecipientLinks)
  | groupEmailDraft (recipients : List String) (emailTemplate : EmailTemplate)
      (gmailComposeUrl mailtoUrl : String)
  | followupNotFound (requestedEvent : String)
      (availableEvents : List String)
  | followupDraft (template : EmailTemplate)
  | meetingProposals (title : String) (proposals : List MeetingProposal)
  | productivityReport (reportType : String) (stats : BasicStats)
      (recommendations : List String) (filename : String)
  | emailTemplateResult (template : EmailTemplate)
  | scheduleSuggestions (focus : String) (suggestions : List String)
  | eventCreated (eventId title : String) (startTime endTime duration : Nat)
      (attendees : List String) (calendarUrl : String)
  | eventFallback (eventId title : String) (startTime endTime duration : Nat)
      (attendees : List String) (calendarUrl icsContent icsFilename : String)
  | calendarLinkResult (title : String) (startTime endTime : Nat)
      (attendees : List String) (calendarUrl icsContent icsFilename : String)
  | icsGenerated (eventCount : Nat) (filename : String)
deriving Repr, DecidableEq

/-- The hard failures a call can raise: the router's own
`Unknown function` throw, or an uncaught handler exception. -/
inductive ToolError where
  | unknownFunction (name : String)
  | handlerError (message : String)
deriving Repr, DecidableEq

/-- An entry of `recentFunctionCalls`: call, `Date.now()` timestamp
(milliseconds) and memoized response. -/
structure CacheEntry where
  function : String
  parameters : ToolParams
  timestamp : Nat
  response : ToolValue
deriving Repr, DecidableEq

/-- The dispatcher's mutable context: the shared event snapshot and the
duplicate-call cache. -/
structure DispatchState where
  events : List NormalizedEvent
  recentFunctionCalls : List CacheEntry
deriving Repr, DecidableEq

/-- The external collaborators, specified only at their boundary:
Google URL builders, e-mail templates, locale formatting. -/
structure ExtServices where
  createMeetingUrl : String → Nat → Nat → JSArg → Option String →
    Option String → String
  gmailComposeUrl : String → String → String → String
  mailtoLink : String → String → String → String
  createEmailTemplate : String → Option String → String → EmailTemplate
  createMeetingFollowUp : NormalizedEvent → String → EmailTemplate
  weekdayLong : Nat → String
  localeDateLong : Nat → String

/-- The remote `createEvent` response contract (src/modules/calendar.ts):
either the canonical created event or a thrown error message
(401 → `Calendar access denied. Please sign in again.`,
403 → `Calendar permissions required.`, other →
`Failed to create calendar event: <status>`). -/
structure CreatedEvent where
  id : String
  summary : String := ""
  description : Option String := none
  location : Option String := none
  startDateTime : Option Nat := none
  startDate : Nat := 0
  endDateTime : Option Nat := none
  endDate : Nat := 0
  attendees : Option (List String) := none
  organizerEmail : Option String := none
  htmlLink : Option String := none
deriving Repr, DecidableEq

/-- The evaluation environment of one dispatcher call: the clock (in
milliseconds and minutes), the outcome the remote create call would
produce, the `Math.random` suffix of locally synthesized ids, and the
external services. -/
structure DispatchEnv where
  nowMs : Nat
  nowMin : Nat
  remoteCreate : Except String CreatedEvent
  randomSuffix : String
  constraints : SchedulingConstraints
  ext : ExtServices

/-! ### Duplicate-call cache -/

/-- The Joe/Dan/Sally containment test of `checkForDuplicateCall`. -/
def tripleNameCheck (ctx : String) : Bool :=
  jsIncludes ctx "Joe" && jsIncludes ctx "Dan" && jsIncludes ctx "Sally"

/-- The `find` predicate of `checkForDuplicateCall`: only
`create_email_draft` calls whose context (and the cached call's context)
mention Joe, Dan and Sally count as duplicates. -/
def duplicatePredicate (functionName : String) (p : ToolParams)
    (call : CacheEntry) : Bool :=
  if call.function ≠ functionName then false
  else if functionName = "create_email_draft" then
    tripleNameCheck (p.context.getD "") &&
      tripleNameCheck (call.parameters.context.getD "")
  else false

/-- `ToolDispatcher.checkForDuplicateCall`: purge entries older than 10
seconds (the reassignment of `recentFunctionCalls` is returned as the new
cache) and look up a duplicate, returning its memoized response. -/
def checkForDuplicateCall (recent : List CacheEntry) (nowMs : Nat)
    (functionName : String) (p : ToolParams) :
    Option ToolValue × List CacheEntry :=
  let cleaned := recent.filter (fun call =>
    decide ((call.timestamp : Int) > (nowMs : Int) - 10000))
  ((cleaned.find? (duplicatePredicate functionName p)).map (·.response),
   cleaned)

/-- `ToolDispatcher.addToRecentCalls`: append the call, then `shift` when
more than 5 entries are held. -/
def addToRecentCalls (recent : List CacheEntry) (nowMs : Nat)
    (functionName : String) (p : ToolParams) (response : ToolValue) :
    List CacheEntry :=
  let pushed := recent ++ [⟨functionName, p, nowMs, response⟩]
  if pushed.length > 5 then pushed.drop 1 else pushed

/-! ### Recipient extraction -/

/-- The hard-coded fallback recipient triple. -/
def fallbackTriple : List String :=
  ["joe@gmail.com", "dan@gmail.com", "sally@gmail.com"]

/-- Character class of the local part of the e-mail regex
`[A-Za-z0-9._%+-]`. -/
def isEmailLocalChar (c : Char) : Bool :=
  ('A' ≤ c && c ≤ 'Z') || ('a' ≤ c && c ≤ 'z') || ('0' ≤ c && c ≤ '9') ||
    c = '.' || c = '_' || c = '%' || c = '+' || c = '-'

/-- Character class of the domain part `[A-Za-z0-9.-]`. -/
def isEmailDomainChar (c : Char) : Bool :=
  ('A' ≤ c && c ≤ 'Z') || ('a' ≤ c && c ≤ 'z') || ('0' ≤ c && c ≤ '9') ||
    c = '.' || c = '-'

/-- ASCII letter test (`[A-Za-z]`). -/
def isAsciiLetter (c : Char) : Bool :=
  ('A' ≤ c && c ≤ 'Z') || ('a' ≤ c && c ≤ 'z')

/-- Does the domain run end in `.` followed by at least two letters, as
`[A-Za-z0-9.-]+\.[A-Z|a-z]{2,}` requires? -/
def emailDomainOk (domain : List Char) : Bool :=
  match (splitOnChar '.' domain).reverse with
  | tld :: _ :: _ => tld.length ≥ 2 && tld.all isAsciiLetter
  | _ => false

/-- Global scan of the e-mail regex
`/\b[A-Za-z0-9._%+-]+@[A-Za-z0-9.-]+\.[A-Z|a-z]{2,}\b/g` over the context
text (character-class model; word-boundary behaviour at exotic positions
is approximated — no claim depends on this helper's fine structure).
The fuel argument bounds the scan by the input length. -/
def scanEmailsAux : Nat → List Char → List String
  | 0, _ => []
  | _, [] => []
  | fuel + 1, c :: cs =>
    if isEmailLocalChar c then
      let localRun := (c :: cs).takeWhile isEmailLocalChar
      let afterLocal := (c :: cs).dropWhile isEmailLocalChar
      match afterLocal with
      | '@' :: afterAt =>
        let domain := afterAt.takeWhile isEmailDomainChar
        let afterDomain := afterAt.dropWhile isEmailDomainChar
        if emailDomainOk domain then
          String.mk (localRun ++ '@' :: domain) :: scanEmailsAux fuel afterDomain
        else
          scanEmailsAux fuel afterAt
      | _ => scanEmailsAux fuel afterLocal
    else
      scanEmailsAux fuel cs

/-- All e-mail tokens of a text. -/
def extractEmails (text : String) : List String :=
  scanEmailsAux text.data.length text.data

/-- `ToolDispatcher.extractNamesFromContext`: the explicit `to` argument
first (array, comma string, bare scalar), then regex extraction from the
context, then the hard-coded fallback triple. -/
def extractNamesFromContext (context : Option String) (toField : JSArg) :
    List String :=
  let fromTo : Option (List String) :=
    if jsTruthy toField then
      match toField with
      | .list l => some l
      | .str s =>
        if jsIncludes s "," then some ((jsSplitComma s).map jsTrim)
        else if jsTrim s ≠ "" then some [jsTrim s]
        else none
      | .undef => none
    else none
  match fromTo with
  | some r => r
  | none =>
    match context with
    | some ctx =>
      if ctx ≠ "" then
        match extractEmails ctx with
        | [] => fallbackTriple
        | es => es
      else fallbackTriple
    | none => fallbackTriple

/-! ### The dispatcher's own availability scan (for e-mail bodies) -/

/-- One labelled candidate of `ToolDispatcher.findAvailableTimeSlots`. -/
structure SlotLabel where
  date : String
  time : String
  available : Bool
deriving Repr, DecidableEq

/-- Does an hour slot hit an existing event
(`slotTime >= eventStart && slotTime < eventEnd`)? -/
def slotHitsEvent (events : List NormalizedEvent) (slotTime : Nat) : Bool :=
  events.any (fun event =>
    event.startTime ≤ slotTime && slotTime < event.endTime)

/-- The 12-hour label `H:00 AM|PM` of a whole hour. -/
def hourLabel (hour : Nat) : String :=
  let displayHour := if hour > 12 then hour - 12 else hour
  let ampm := if hour ≥ 12 then "PM" else "AM"
  toString displayHour ++ ":00 " ++ ampm

/-- `ToolDispatcher.findAvailableTimeSlots`: afternoon (13–17) and evening
(18–20) whole-hour slots over the next 14 days, skipping weekends and
hours already inside an event, truncated to 10. -/
def findAvailableTimeSlots (ext : ExtServices)
    (events : List NormalizedEvent) (nowMin : Nat) : List SlotLabel :=
  let slots := (List.range 14).flatMap (fun dayOffset =>
    let day := (nowMin + dayOffset * 1440) / 1440
    if day % 7 = 0 || day % 7 = 6 then []
    else
      ((List.range 5).map (fun i => 13 + i) ++
       (List.range 3).map (fun i => 18 + i)).filterMap (fun hour =>
        let slotTime := day * 1440 + hour * 60
        if !slotHitsEvent events slotTime then
          some ⟨ext.localeDateLong day, hourLabel hour, true⟩
        else none))
  slots.take 10

/-! ### E-mail drafting handlers -/

/-- The subject-cleaning rule of the scheduling-e-mail generators. -/
def cleanSubjectFor (safeContext : String) : String :=
  if jsIncludes safeContext "project" then "Project Meeting Scheduling"
  else if jsIncludes safeContext "discussion" then
    "Meeting Discussion Scheduling"
  else if jsIncludes safeContext "kickoff" then "Project Kickoff Meeting"
  else "Meeting Scheduling Request"

/-- The `Day at H:00 PM, ...` listing shared by the scheduling e-mails. -/
def availableSlotsText (slots : List SlotLabel) : String :=
  joinSep ", " (slots.map (fun slot => slot.date ++ " at " ++ slot.time))

/-- `ToolDispatcher.generateMeetingSchedulingEmail`: a personalized
scheduling e-mail.  The long fixed prose of the body is carried in
condensed form (no property reads it); the recipient greeting, the subject
rule and the embedded slot list are the faithful parts. -/
def generateMeetingSchedulingEmail (name : String) (safeContext : String)
    (slots : List SlotLabel) : EmailTemplate :=
  let firstName := String.mk ((splitOnChar '@' name.data).headD [])
  { toAddr := name,
    subject := cleanSubjectFor safeContext,
    body := "Dear " ++ firstName ++
      ", [personalized meeting-scheduling body] " ++
      availableSlotsText slots }

/-- `ToolDispatcher.generateGroupMeetingSchedulingEmail`: one shared
scheduling e-mail greeting every recipient. -/
def generateGroupMeetingSchedulingEmail (names : List String)
    (safeContext : String) (slots : List SlotLabel) : EmailTemplate :=
  let firstNames := names.map (fun name =>
    String.mk ((splitOnChar '@' name.data).headD []))
  { toAddr := joinSep ", " names,
    subject := cleanSubjectFor safeContext,
    body := "Dear " ++ joinSep ", " firstNames ++
      ", [group meeting-scheduling body] " ++ availableSlotsText slots }

/-- The shared default context of the scheduling e-mail handlers. -/
def schedulingFallbackContext : String :=
  "schedule meetings with Joe, Dan, and Sally for project discussions"

/-- `ToolDispatcher.createMultipleMeetingEmails`: one personalized draft
per extracted recipient, with per-recipient compose links. -/
def createMultipleMeetingEmails (env : DispatchEnv) (st : DispatchState)
    (p : ToolParams) : ToolValue :=
  let names := extractNamesFromContext p.context p.toField
  let slots := findAvailableTimeSlots env.ext st.events env.nowMin
  let safeContext := jsOrString p.context schedulingFallbackContext
  let emailTemplates := names.map (fun name =>
    generateMeetingSchedulingEmail name safeContext slots)
  let links := (names.zip emailTemplates).map (fun pair =>
    { recipient := pair.1,
      gmailComposeUrl :=
        env.ext.gmailComposeUrl pair.1 pair.2.subject pair.2.body,
      mailtoUrl := env.ext.mailtoLink pair.1 pair.2.subject pair.2.body })
  .multipleEmailDrafts emailTemplates links

/-- `ToolDispatcher.createGroupEmail`: recipients from the `to` argument
(array, else comma split, else context extraction), one shared draft and
one compose link addressed to all of them. -/
def createGroupEmail (env : DispatchEnv) (st : DispatchState)
    (p : ToolParams) : ToolValue :=
  let recipients :=
    match p.toField with
    | .list l => l
    | .str s =>
      if jsIncludes s "," then (jsSplitComma s).map jsTrim
      else extractNamesFromContext p.context p.toField
    | .undef => extractNamesFromContext p.context p.toField
  let slots := findAvailableTimeSlots env.ext st.events env.nowMin
  let safeContext := jsOrString p.context schedulingFallbackContext
  let emailTemplate :=
    generateGroupMeetingSchedulingEmail recipients safeContext slots
  let allRecipients := joinSep "," recipients
  .groupEmailDraft recipients emailTemplate
    (env.ext.gmailComposeUrl allRecipients emailTemplate.subject
      emailTemplate.body)
    (env.ext.mailtoLink allRecipients emailTemplate.subject
      emailTemplate.body)

/-- The explicit group-e-mail phrases checked against the user message. -/
def groupEmailPhrasesUser : List String :=
  ["one email for all 3 of them", "one email to all three",
   "one email for all three", "email for all of them", "one email to all",
   "single email to all", "group email", "email to all three", "one email",
   "single email"]

/-- The explicit group-e-mail phrases checked against the context. -/
def groupEmailPhrasesContext : List String :=
  ["one email to all three", "email to all three", "group email to all",
   "single email to all three"]

/-- The explicit fan-out phrases checked against the user message. -/
def multipleEmailPhrasesUser : List String :=
  ["share with each of them", "email draft I can share with each of them",
   "emails for each of them", "individual email to each person",
   "individual email to each", "individual emails for each",
   "separate email for each", "email for each person", "individual email",
   "each person", "each of them", "separately"]

/-- The group-e-mail detection of `createEmailDraft`. -/
def isGroupEmailRequest (userMessage context : Option String) : Bool :=
  (!jsFalsyStr userMessage &&
    groupEmailPhrasesUser.any (jsIncludes (userMessage.getD ""))) ||
  (!jsFalsyStr context &&
    groupEmailPhrasesContext.any (jsIncludes (context.getD "")))

/-- The fan-out detection of `createEmailDraft`: explicit per-person
phrases in the user message, or named recipients in the context with no
user message and no group wording. -/
def isMultipleEmailRequest (userMessage context : Option String) : Bool :=
  (!jsFalsyStr userMessage &&
    multipleEmailPhrasesUser.any (jsIncludes (userMessage.getD ""))) ||
  (!jsFalsyStr context && jsFalsyStr userMessage &&
    (let c := context.getD ""
     (jsIncludes c "Joe" || jsIncludes c "Dan" || jsIncludes c "Sally") &&
       !jsIncludes c "one email" && !jsIncludes c "single email" &&
       !jsIncludes c "email to all" && !jsIncludes c "email for all"))

/-- Is the `to` argument empty in the sense of the group branch
(`!to || (array && length 0) || (string && trim === '')`)? -/
def toFieldIsEmpty : JSArg → Bool
  | .undef => true
  | .list l => l.isEmpty
  | .str s => jsTrim s = ""

/-- `ToolDispatcher.createEmailDraft`: explicit multi-recipient arguments
short-circuit to the group system; then the group-phrase, fan-out-phrase
and named-recipient heuristics; otherwise a single draft (whose
`meeting_confirmation` branch calls `to.split` and therefore throws when
`to` is not a string). -/
def createEmailDraft (env : DispatchEnv) (st : DispatchState)
    (p : ToolParams) : Except ToolError ToolValue :=
  let hasMultipleRecipients : Bool :=
    (match p.toField with
     | .list l => decide (l.length > 1)
     | .str s => jsIncludes s ","
     | .undef => false)
  if hasMultipleRecipients then
    .ok (createGroupEmail env st p)
  else if isGroupEmailRequest p.userMessage p.context then
    let p2 :=
      if toFieldIsEmpty p.toField then
        { p with toField := .str "joe@gmail.com,dan@gmail.com,sally@gmail.com" }
      else p
    .ok (createGroupEmail env st p2)
  else if isMultipleEmailRequest p.userMessage p.context then
    .ok (createMultipleMeetingEmails env st p)
  else
    let fallbackContext := jsOrString p.context "meeting scheduling"
    if jsIncludes fallbackContext "Joe" || jsIncludes fallbackContext "Dan"
        || jsIncludes fallbackContext "Sally" then
      .ok (createMultipleMeetingEmails env st p)
    else if (!jsFalsyStr p.userMessage &&
        (let m := p.userMessage.getD ""
         (jsIncludes m "Joe" || jsIncludes m "Dan" || jsIncludes m "Sally") &&
           (jsIncludes m "individual" || jsIncludes m "each" ||
             jsIncludes m "separate"))) then
      .ok (createMultipleMeetingEmails env st p)
    else if p.emailType = "meeting_confirmation" then
      match p.toField with
      | .str s =>
        let contextText := match p.context with
          | some c => c
          | none => "undefined"
        let enhancedSubject := "Meeting Confirmation - " ++ contextText
        let greeting :=
          let namePart := String.mk ((splitOnChar '@' s.data).headD [])
          if namePart = "" then "there" else namePart
        let enhancedBody := "Dear " ++ greeting ++
          ", [meeting-confirmation body] " ++ contextText
        let recipient := if s = "" then "recipient@example.com" else s
        .ok (.singleEmailDraft p.emailType recipient enhancedSubject
          enhancedBody
          (env.ext.gmailComposeUrl recipient enhancedSubject enhancedBody)
          (env.ext.mailtoLink recipient enhancedSubject enhancedBody))
      | _ =>
        -- `to.split('@')` on a non-string value: TypeError escapes.
        .error (.handlerError "to.split is not a function")
    else
      let template :=
        env.ext.createEmailTemplate p.emailType (some fallbackContext) p.tone
      let recipient :=
        if jsTruthy p.toField then jsArgToString p.toField
        else "recipient@example.com"
      .ok (.singleEmailDraft p.emailType recipient template.subject
        template.body
        (env.ext.gmailComposeUrl recipient template.subject template.body)
        (env.ext.mailtoLink recipient template.subject template.body))

/-! ### Remaining handlers -/

/-- Gregorian leap-year test. -/
def isLeapYear (y : Nat) : Bool :=
  (y % 4 = 0 && y % 100 ≠ 0) || y % 400 = 0

/-- Days in a month. -/
def daysInMonth (y m : Nat) : Nat :=
  if m = 2 then (if isLeapYear y then 29 else 28)
  else if m = 4 || m = 6 || m = 9 || m = 11 then 30
  else 31

/-- `ToolDispatcher.fetchEvents`: filter the snapshot by the requested
time range (weeks run Sunday-to-Saturday from the current instant's
time-of-day, as the `setDate` arithmetic of the source produces) and
truncate to `maxResults`. -/
def fetchEvents (env : DispatchEnv) (st : DispatchState) (p : ToolParams) :
    ToolValue :=
  let dow := env.nowMin / 1440 % 7
  let ranged : List NormalizedEvent × String :=
    if p.timeRange = "today" then
      (st.events.filter (fun event =>
        event.startTime / 1440 == env.nowMin / 1440), "today")
    else if p.timeRange = "this_week" then
      let weekStart := env.nowMin - dow * 1440
      let weekEnd := weekStart + 6 * 1440
      (st.events.filter (fun event =>
        weekStart ≤ event.startTime && event.startTime ≤ weekEnd),
       "this week")
    else if p.timeRange = "next_week" then
      let nextWeekStart := env.nowMin + (7 - dow) * 1440
      let nextWeekEnd := nextWeekStart + 6 * 1440
      (st.events.filter (fun event =>
        nextWeekStart ≤ event.startTime && event.startTime ≤ nextWeekEnd),
       "next week")
    else if p.timeRange = "this_month" then
      let civil := civilFromDays (env.nowMin / 1440)
      let monthStart := env.nowMin - (civil.2.2 - 1) * 1440
      let monthEnd := monthStart + (daysInMonth civil.1 civil.2.1 - 1) * 1440
      (st.events.filter (fun event =>
        monthStart ≤ event.startTime && event.startTime ≤ monthEnd),
       "this month")
    else
      (st.events, "all upcoming")
  let filteredEvents := ranged.1.take p.maxResults
  .fetchedEvents filteredEvents filteredEvents.length ranged.2

/-- `ToolDispatcher.createMeetingFollowup`: look the event up by exact
title; a miss yields the friendly not-found result (no throw), a hit
delegates to the e-mail service. -/
def createMeetingFollowup (env : DispatchEnv) (st : DispatchState)
    (p : ToolParams) : ToolValue :=
  match st.events.find? (fun event => event.title == p.eventTitle) with
  | none => .followupNotFound p.eventTitle (st.events.map (·.title))
  | some event =>
    .followupDraft (env.ext.createMeetingFollowUp event p.attendeeEmail)

/-- Attendee list of a raw argument for purposes that need a list (the
proposal ICS events); a bare string becomes a singleton. -/
def jsArgToStringList : JSArg → List String
  | .list l => l
  | .str s => [s]
  | .undef => []

/-- `ToolDispatcher.suggestMeetingTimes`: run the scheduler and decorate
every suggested slot with a calendar link and an ICS payload. -/
def suggestMeetingTimes (env : DispatchEnv) (st : DispatchState)
    (p : ToolParams) : ToolValue :=
  let suggestions := suggestOptimalMeetingTimes env.constraints st.events
    env.nowMin p.duration (some p.preferredTime) p.urgency
  let proposals := suggestions.enum.map (fun pair =>
    let index := pair.1
    let slot := pair.2
    let icsEvent : NormalizedEvent :=
      { id := "meeting-proposal-" ++ toString index,
        title := p.title,
        startTime := slot.start,
        endTime := slot.stop,
        duration := slot.duration,
        description := jsOrString p.description "",
        location := jsOrString p.location "",
        attendees := jsArgToStringList p.attendees,
        organizer := "",
        url := "",
        isAllDay := false }
    { slotNumber := index + 1,
      start := slot.start,
      stop := slot.stop,
      duration := slot.duration,
      isAvailable := slot.isAvailable,
      calendarUrl := env.ext.createMeetingUrl p.title slot.start slot.stop
        p.attendees p.location p.description,
      icsContent := generateSingleEventICS env.nowMin icsEvent,
      icsFilename := makeIcsFilename p.title slot.start : MeetingProposal })
  .meetingProposals p.title proposals

/-- `Math.round(a / b)` over naturals. -/
def jsRoundDiv (a b : Nat) : Nat := (2 * a + b) / (2 * b)

/-- Counts per key in first-occurrence order (JavaScript object-literal
key order under `Object.entries`). -/
def keyCounts (keys : List String) : List (String × Nat) :=
  keys.foldl (fun acc k =>
    if acc.any (fun e => e.1 == k) then
      acc.map (fun e => if e.1 == k then (e.1, e.2 + 1) else e)
    else acc ++ [(k, 1)]) []

/-- Head key of the entries stably sorted by descending count, `'None'`
when there are none (`ToolDispatcher.getMostActiveDay` and friends). -/
def mostActiveKey (entries : List (String × Nat)) : String :=
  match (entries.mergeSort (fun x y => y.2 ≤ x.2)).head? with
  | some e => if e.1 = "" then "None" else e.1
  | none => "None"

/-- `ToolDispatcher.getMostActiveTime`: morning / afternoon / evening
bucket counts, in object-literal order. -/
def getMostActiveTime (events : List NormalizedEvent) : String :=
  let hourOf := fun (event : NormalizedEvent) => event.startTime % 1440 / 60
  mostActiveKey
    [("morning", events.countP (fun e => hourOf e < 12)),
     ("afternoon", events.countP (fun e => 12 ≤ hourOf e && hourOf e < 17)),
     ("evening", events.countP (fun e => 17 ≤ hourOf e))]

/-- `ToolDispatcher.calculateBasicStats` (the exact rational
`averageDuration` is represented by `totalMinutes`/`totalEvents`;
consumers compare it through products). -/
def calculateBasicStats (ext : ExtServices)
    (events : List NormalizedEvent) : BasicStats :=
  let totalMinutes := (events.map (·.duration)).sum
  { totalEvents := events.length,
    totalMinutes := totalMinutes,
    totalHours := jsRoundDiv totalMinutes 60,
    mostActiveDay := mostActiveKey (keyCounts (events.map (fun event =>
      ext.weekdayLong (event.startTime / 1440 % 7)))),
    mostActiveTime := getMostActiveTime events }

/-- `ToolDispatcher.generateRecommendations`. -/
def generateRecommendations (stats : BasicStats) : List String :=
  let recommendations :=
    (if stats.totalMinutes > 60 * stats.totalEvents then
      ["Consider breaking longer meetings into shorter, focused sessions for better engagement."]
     else []) ++
    (if stats.totalHours > 20 then
      ["Your schedule is quite busy. Consider blocking focus time for deep work."]
     else []) ++
    (if stats.totalEvents > 15 then
      ["You have many meetings scheduled. Look for opportunities to consolidate or eliminate unnecessary ones."]
     else []) ++
    (if stats.mostActiveDay = "Monday" || stats.mostActiveDay = "Friday" then
      ["Consider spreading meetings more evenly throughout the week to avoid Monday/Friday overload."]
     else []) ++
    (if stats.totalEvents > 0 then
      ["Schedule buffer time between meetings to allow for preparation and follow-up.",
       "Use the 80/20 rule: focus on the 20% of meetings that drive 80% of your results."]
     else [])
  if recommendations.length > 0 then recommendations
  else ["Your schedule looks well-balanced. Keep up the good work!"]

/-- `ToolDispatcher.generateProductivityReport` (the downloadable report
text is presentation; the stats, recommendations and filename are the
structured payload). -/
def generateProductivityReport (env : DispatchEnv) (st : DispatchState)
    (p : ToolParams) : ToolValue :=
  let stats := calculateBasicStats env.ext st.events
  let recommendations :=
    if p.includeRecommendations then generateRecommendations stats else []
  .productivityReport p.reportType stats recommendations
    ("productivity_report_" ++ p.reportType ++ "_" ++
      isoDatePart env.nowMin ++ ".txt")

/-! ### Schedule optimization (SchedulerService.optimizeSchedule) -/

/-- JavaScript `split(/\s+/)`: split on whitespace runs (leading and
trailing runs contribute empty fragments, as the regex engine does). -/
def splitWsAux (acc : List Char) : List Char → List String
  | [] => [String.mk acc.reverse]
  | c :: cs =>
    if isSpaceChar c then
      String.mk acc.reverse :: consumeRun cs
    else
      splitWsAux (c :: acc) cs
where
  /-- Skip the rest of a whitespace run, then continue splitting. -/
  consumeRun : List Char → List String
  | [] => [""]
  | c :: cs =>
    if isSpaceChar c then consumeRun cs else splitWsAux [c] cs

/-- `title.toLowerCase().split(/\s+/)`. -/
def titleWords (title : String) : List String :=
  splitWsAux [] (jsToLower title).data

/-- `SchedulerService.calculateTitleSimilarity > 0.7`, compared exactly
(`common / distinct > 7/10` ⇔ `10·common > 7·distinct`). -/
def titleSimilarityHigh (title1 title2 : String) : Bool :=
  let words1 := titleWords title1
  let words2 := titleWords title2
  let commonWords := words1.filter (fun w => words2.contains w)
  let totalWords := (words1 ++ words2).eraseDups.length
  10 * commonWords.length > 7 * totalWords

/-- `SchedulerService.findSimilarMeetings`: greedy grouping with a
processed set, in input order. -/
def findSimilarMeetings (events : List NormalizedEvent) :
    List (List NormalizedEvent) :=
  (events.foldl (fun acc event =>
    let groups := acc.1
    let processed := acc.2
    if processed.contains event.id then acc
    else
      let similar := events.filter (fun other =>
        !(other.id == event.id) && !processed.contains other.id &&
          titleSimilarityHigh event.title other.title)
      if similar.length > 0 then
        (groups ++ [event :: similar],
         processed ++ [event.id] ++ similar.map (·.id))
      else acc)
    (([], []) : List (List NormalizedEvent) × List String)).1

/-- `SchedulerService.analyzeSchedule`, reduced to the numbers
`optimizeSchedule` reads. -/
def analyzeScheduleNumbers (events : List NormalizedEvent) :
    Nat × Nat × Nat × Nat :=
  let totalMinutes := (events.map (·.duration)).sum
  let morning := events.countP (fun e => e.startTime % 1440 / 60 < 12)
  (events.length, totalMinutes, jsRoundDiv totalMinutes 60, morning)

/-- `SchedulerService.optimizeSchedule`: the focus-dependent suggestion
lists. -/
def optimizeSchedule (events : List NormalizedEvent) (focus : String) :
    List String :=
  let stats := analyzeScheduleNumbers events
  let totalMeetings := stats.1
  let totalMinutes := stats.2.1
  let totalHours := stats.2.2.1
  let morning := stats.2.2.2
  if focus = "reduce_meetings" then
    (if totalMeetings > 20 then
      ["Consider declining meetings without clear agendas",
       "Set \"no meeting\" blocks in your calendar"]
     else []) ++
    (if totalMinutes > 60 * totalMeetings then
      ["Try reducing meeting duration to 30 minutes"]
     else [])
  else if focus = "consolidate_meetings" then
    if (findSimilarMeetings events).length > 0 then
      ["Consider consolidating similar meetings",
       "Batch related discussions into single meetings"]
    else []
  else if focus = "improve_productivity" then
    (if morning < 2 then
      ["Schedule important meetings in the morning when energy is high"]
     else []) ++
    (if totalHours > 25 then
      ["Consider blocking focus time between meetings"]
     else [])
  else if focus = "block_focus_time" then
    ["Schedule 2-hour focus blocks for deep work",
     "Protect focus time from meeting requests",
     "Use \"Do Not Disturb\" during focus periods"]
  else []

/-! ### Event creation, link generation and ICS export -/

/-- `s.startsWith(prefixText)` at the character-list level. -/
def jsStartsWith (s prefixText : String) : Bool :=
  List.isPrefixOf prefixText.data s.data

/-- `s.endsWith(suffixText)` at the character-list level. -/
def jsEndsWith (s suffixText : String) : Bool :=
  List.isPrefixOf suffixText.data.reverse s.data.reverse

/-- Minimal `JSON.parse` for a `["a", "b"]`-shaped array of plain strings
(escape sequences and nested values are beyond what the dispatcher's
attendee arguments use; anything else parses to `none`, which the caller's
`catch` turns into a singleton). -/
def parseJsonStringArray (s : String) : Option (List String) :=
  let inner := jsTrim s
  if jsStartsWith inner "[" && jsEndsWith inner "]" then
    let content := String.mk ((inner.data.drop 1).dropLast)
    if jsTrim content = "" then some []
    else
      let items := (jsSplitComma content).map jsTrim
      if items.all (fun item =>
          jsStartsWith item "\"" && jsEndsWith item "\"" &&
            item.data.length ≥ 2) then
        some (items.map (fun item => String.mk ((item.data.drop 1).dropLast)))
      else none
  else none

/-- The attendee normalization shared by `createCalendarEvent` and
`createCalendarLink`: native array, JSON-array string, comma string, or
bare scalar (singleton); malformed JSON degrades to the trimmed raw
string. -/
def parseAttendeesArg (rawAttendees : JSArg) : List String :=
  match rawAttendees with
  | .list l => l
  | .str s =>
    if jsStartsWith s "[" && jsEndsWith s "]" then
      match parseJsonStringArray s with
      | some l => l
      | none => [jsTrim s]
    else (jsSplitComma s).map jsTrim
  | .undef => []

/-- The locally synthesized fallback event id
`event-${Date.now()}-${random}`. -/
def fallbackEventId (env : DispatchEnv) : String :=
  "event-" ++ toString env.nowMs ++ "-" ++ env.randomSuffix

/-- The locally synthesized event appended to the snapshot on the
fallback path of `createCalendarEvent`. -/
def fallbackEvent (env : DispatchEnv) (p : ToolParams)
    (attendees : List String) : NormalizedEvent :=
  { id := fallbackEventId env,
    title := p.title,
    startTime := p.startTime.instantMin,
    endTime := p.endTime.instantMin,
    duration := p.endTime.instantMin - p.startTime.instantMin,
    description := jsOrString p.description "",
    location := jsOrString p.location "",
    attendees := attendees,
    organizer := "",
    url := "",
    isAllDay := false }

/-- `ToolDispatcher.createCalendarEvent`: attempt the remote create; on
success append the canonical event, on **any** failure degrade — append a
locally synthesized event and return a deep-link plus ICS payload instead
of throwing.  The remote outcome is consulted exactly once (the degraded
path is terminal, never retried). -/
def createCalendarEvent (env : DispatchEnv) (st : DispatchState)
    (p : ToolParams) : Except ToolError ToolValue × DispatchState :=
  let attendees := parseAttendeesArg p.attendees
  let start := p.startTime.instantMin
  let stop := p.endTime.instantMin
  match env.remoteCreate with
  | .ok createdEvent =>
    let normalizedEvent : NormalizedEvent :=
      { id := createdEvent.id,
        title := jsOrString (some createdEvent.summary) p.title,
        startTime := createdEvent.startDateTime.getD createdEvent.startDate,
        endTime := createdEvent.endDateTime.getD createdEvent.endDate,
        duration := stop - start,
        description := jsOrString createdEvent.description
          (jsOrString p.description ""),
        location := jsOrString createdEvent.location
          (jsOrString p.location ""),
        attendees := createdEvent.attendees.getD attendees,
        organizer := createdEvent.organizerEmail.getD "",
        url := createdEvent.htmlLink.getD "",
        isAllDay := createdEvent.startDateTime.isNone }
    (.ok (.eventCreated createdEvent.id
        (jsOrString (some createdEvent.summary) p.title) start stop
        normalizedEvent.duration normalizedEvent.attendees
        (createdEvent.htmlLink.getD "")),
     { st with events := st.events ++ [normalizedEvent] })
  | .error _ =>
    let event := fallbackEvent env p attendees
    (.ok (.eventFallback (fallbackEventId env) p.title start stop
        event.duration attendees
        (env.ext.createMeetingUrl p.title start stop (.list attendees)
          p.location p.description)
        (generateSingleEventICS env.nowMin event)
        (makeIcsFilename p.title start)),
     { st with events := st.events ++ [event] })

/-- `ToolDispatcher.createCalendarLink`: recalculate untrustworthy dates
from the user message, normalize attendees, and build the deep-link and
ICS payload (no snapshot mutation). -/
def createCalendarLink (env : DispatchEnv) (_st : DispatchState)
    (p : ToolParams) : ToolValue :=
  let actual : Nat × Nat :=
    if shouldRecalculateDates env.nowMin p.startTime.iso
        p.startTime.instantMin p.userMessage then
      match parseNaturalLanguageDate env.nowMin (p.userMessage.getD "") with
      | some r => r
      | none => (p.startTime.instantMin, p.endTime.instantMin)
    else (p.startTime.instantMin, p.endTime.instantMin)
  let attendees := parseAttendeesArg p.attendees
  let event : NormalizedEvent :=
    { id := "event-" ++ toString env.nowMs,
      title := p.title,
      startTime := actual.1,
      endTime := actual.2,
      duration := actual.2 - actual.1,
      description := jsOrString p.description "",
      location := jsOrString p.location "",
      attendees := attendees,
      organizer := "",
      url := "",
      isAllDay := false }
  .calendarLinkResult p.title actual.1 actual.2 attendees
    (env.ext.createMeetingUrl p.title actual.1 actual.2 (.list attendees)
      p.location p.description)
    (generateSingleEventICS env.nowMin event)
    (makeIcsFilename p.title actual.1)

/-- `ToolDispatcher.generateICS`: select the snapshot events with the
requested ids; **throws** `No events found with the provided IDs` when the
selection is empty (the ICS download itself is browser I/O). -/
def generateICSHandler (st : DispatchState) (p : ToolParams) :
    Except ToolError ToolValue × DispatchState :=
  let selectedEvents := st.events.filter (fun event =>
    p.eventIds.contains event.id)
  if selectedEvents.length = 0 then
    (.error (.handlerError "No events found with the provided IDs"), st)
  else
    (.ok (.icsGenerated selectedEvents.length p.filename), st)

/-! ### The router -/

/-- The names registered in the tool catalog (`registerTools`), which are
exactly the cases of `executeFunction`'s dispatch switch. -/
def toolNames : List String :=
  ["fetch_events", "create_email_draft", "create_meeting_followup",
   "suggest_meeting_times", "generate_productivity_report",
   "create_email_template", "optimize_schedule", "create_calendar_event",
   "create_calendar_link", "generate_ics"]

/-- `ToolDispatcher.executeFunction`: consult (and clean) the
duplicate-call cache, attach the user message to the argument bag,
dispatch by name — memoizing only `create_email_draft` results — and
throw `Unknown function` for unregistered names.  Handler throws are
**not** caught here; they surface to the caller as `.error` values. -/
def executeFunction (env : DispatchEnv) (st : DispatchState)
    (functionName : String) (parameters : ToolParams)
    (userMessage : Option String) :
    Except ToolError ToolValue × DispatchState :=
  let dup := checkForDuplicateCall st.recentFunctionCalls env.nowMs
    functionName parameters
  let st1 : DispatchState := { st with recentFunctionCalls := dup.2 }
  match dup.1 with
  | some cached => (.ok cached, st1)
  | none =>
    let p := if jsFalsyStr userMessage then parameters
      else { parameters with userMessage := userMessage }
    if functionName = "fetch_events" then
      (.ok (fetchEvents env st1 p), st1)
    else if functionName = "create_email_draft" then
      match createEmailDraft env st1 p with
      | .ok emailResult =>
        (.ok emailResult,
         { st1 with recentFunctionCalls := (addToRecentCalls
             st1.recentFunctionCalls env.nowMs functionName p emailResult) })
      | .error e => (.error e, st1)
    else if functionName = "create_meeting_followup" then
      (.ok (createMeetingFollowup env st1 p), st1)
    else if functionName = "suggest_meeting_times" then
      (.ok (suggestMeetingTimes env st1 p), st1)
    else if functionName = "generate_productivity_report" then
      (.ok (generateProductivityReport env st1 p), st1)
    else if functionName = "create_email_template" then
      (.ok (.emailTemplateResult
        (env.ext.createEmailTemplate p.templateType p.context p.tone)), st1)
    else if functionName = "optimize_schedule" then
      (.ok (.scheduleSuggestions p.focus (optimizeSchedule st1.events p.focus)),
       st1)
    else if functionName = "create_calendar_event" then
      createCalendarEvent env st1 p
    else if functionName = "create_calendar_link" then
      (.ok (createCalendarLink env st1 p), st1)
    else if functionName = "generate_ics" then
      generateICSHandler st1 p
    else
      (.error (.unknownFunction functionName), st1)

/-! ## Concrete fixtures used by witnesses and counterexamples -/

/-- Sample external services for concrete evaluation. -/
def sampleExt : ExtServices :=
  { createMeetingUrl := fun _ _ _ _ _ _ =>
      "https://calendar.google.com/calendar/render",
    gmailComposeUrl := fun _ _ _ => "https://mail.google.com/mail/?view=cm",
    mailtoLink := fun _ _ _ => "mailto:someone",
    createEmailTemplate := fun _ _ _ =>
      ⟨"recipient@example.com", "Subject", "Body"⟩,
    createMeetingFollowUp := fun _ _ =>
      ⟨"attendee@example.com", "Follow-up", "Body"⟩,
    weekdayLong := fun d =>
      ["Sunday", "Monday", "Tuesday", "Wednesday", "Thursday", "Friday",
       "Saturday"].getD d "",
    localeDateLong := fun _ => "Someday" }

/-- Sample environment whose remote create call fails with the 403
message. -/
def sampleEnvErr : DispatchEnv :=
  { nowMs := 1000000,
    nowMin := 3 * 1440 + 600,
    remoteCreate := .error "Calendar permissions required.",
    randomSuffix := "k7f2q9x1z",
    constraints := {},
    ext := sampleExt }

/-- An event crossing midnight: starts Sunday 23:00, ends Monday 10:00. -/
def overnightEvent : NormalizedEvent :=
  { id := "e1", title := "Overnight", startTime := 23 * 60,
    endTime := 1440 + 10 * 60, duration := 11 * 60 }

/-- A Monday-morning event 09:30–10:00 (same day as the slots it is
checked against). -/
def mondayEvent : NormalizedEvent :=
  { id := "e2", title := "Standup", startTime := 1440 + 9 * 60 + 30,
    endTime := 1440 + 10 * 60, duration := 30 }

/-- Is a router result a success? -/
def isOkResult : Except ToolError ToolValue → Bool
  | .ok _ => true
  | .error _ => false

/-- The recipient-resolution mode a drafted result represents (the
specification's `single` / `group` / `fanout` classification). -/
def resolvedMode : ToolValue → String
  | .singleEmailDraft _ _ _ _ _ _ => "single"
  | .groupEmailDraft _ _ _ _ => "group"
  | .multipleEmailDrafts _ _ => "fanout"
  | _ => ""

/-- The recipient set a drafted result addresses. -/
def resolvedRecipients : ToolValue → List String
  | .singleEmailDraft _ recipient _ _ _ _ => [recipient]
  | .groupEmailDraft recipients _ _ _ => recipients
  | .multipleEmailDrafts templates _ => templates.map (·.toAddr)
  | _ => []

/-! ## Supporting lemmas -/

theorem mem_slotBoundaries {dayStart dayEnd cur : Nat}
    (h : cur ∈ slotBoundaries dayStart dayEnd) :
    dayStart ≤ cur ∧ cur < dayEnd := by
  unfold slotBoundaries at h
  obtain ⟨k, hk, rfl⟩ := List.mem_map.mp h
  have hk' := List.mem_range.mp hk
  omega

theorem mem_findFreeSlotsForDay {events : List NormalizedEvent}
    {day duration : Nat} {w : Option WorkWindow} {slot : TimeSlot}
    (h : slot ∈ findFreeSlotsForDay events day duration w) :
    (day * 1440 + (w.getD ⟨9 * 60, 17 * 60⟩).startMin ≤ slot.start ∧
      slot.start < day * 1440 + (w.getD ⟨9 * 60, 17 * 60⟩).endMin) ∧
    slot.stop = slot.start + duration ∧
    slot.isAvailable = true ∧
    isTimeSlotBusy slot.start slot.stop
      (getBusySlots (getEventsForDate events day)) = false := by
  unfold findFreeSlotsForDay at h
  obtain ⟨cur, hcur, heq⟩ := List.mem_filterMap.mp h
  have hb := mem_slotBoundaries hcur
  by_cases hcond : (cur + duration ≤ day * 1440 +
      (w.getD ⟨9 * 60, 17 * 60⟩).endMin &&
      !(isTimeSlotBusy cur (cur + duration)
        (getBusySlots (getEventsForDate events day)))) = true
  · rw [if_pos hcond] at heq
    obtain ⟨h1, h2⟩ := Bool.and_eq_true_iff.mp hcond
    cases heq
    refine ⟨⟨hb.1, hb.2⟩, rfl, rfl, ?_⟩
    simpa using h2
  · rw [if_neg hcond] at heq
    exact absurd heq (by simp)

theorem not_overlap_of_not_busy {s e : Nat} {busy : List (Nat × Nat)}
    (h : isTimeSlotBusy s e busy = false) :
    ∀ b ∈ busy, ¬(s < b.2 ∧ e > b.1) := by
  intro b hb
  unfold isTimeSlotBusy at h
  have := List.any_eq_false.mp h b hb
  intro ⟨h1, h2⟩
  simp [h1, h2] at this

theorem mem_findFreeSlots {constraints : SchedulingConstraints}
    {events : List NormalizedEvent} {duration startDate endDate : Nat}
    {w : Option WorkWindow} {slot : TimeSlot}
    (h : slot ∈ findFreeSlots constraints events duration startDate endDate w) :
    ∃ day, slot ∈ findFreeSlotsForDay events day duration w := by
  unfold findFreeSlots at h
  by_cases hle : startDate ≤ endDate
  · rw [if_pos hle] at h
    obtain ⟨k, _, hk⟩ := List.mem_flatMap.mp h
    by_cases hwd : constraints.workingDays.contains
        ((startDate + 1440 * k) / 1440 % 7) = true
    · rw [if_pos hwd] at hk
      exact ⟨(startDate + 1440 * k) / 1440, hk⟩
    · rw [if_neg hwd] at hk
      exact absurd hk (by simp)
  · rw [if_neg hle] at h
    exact absurd h (by simp)

/-- The day index of every slot of a day search is that day, provided the
working window stays inside the day. -/
theorem slot_day_eq {events : List NormalizedEvent} {day duration : Nat}
    {w : Option WorkWindow} {slot : TimeSlot}
    (hwin : (w.getD ⟨9 * 60, 17 * 60⟩).endMin ≤ 1440)
    (h : slot ∈ findFreeSlotsForDay events day duration w) :
    slot.start / 1440 = day := by
  have hm := (mem_findFreeSlotsForDay h).1
  omega

/-! ## C2: slot validity -/

/-- C2, counterexample: searching Monday (day 1) with a 30-minute duration
over a snapshot holding only the overnight event (Sunday 23:00 – Monday
10:00) returns the 09:00–09:30 slot as available although the overnight
event overlaps it — events whose start falls on an earlier calendar day
are invisible to the day filter, so the claim's "including events whose
start instant falls on an earlier calendar day" fails on the code. -/
theorem slot_validity_counterexample :
    (findFreeSlots {} [overnightEvent] 30 1440 1440 none).head? =
        some ⟨1980, 2010, 30, true⟩ ∧
      1980 < overnightEvent.endTime ∧ overnightEvent.startTime < 2010 := by
  decide

/-- C2 (amended): every slot the search returns (all of which carry
`isAvailable = true`) overlaps no event **whose start lies on the slot's
own calendar day**; events starting on an earlier day are not consulted
by the day filter.  The working window is assumed to stay inside the day,
as the default 09:00–17:00 and every preset window do. -/
theorem slot_validity_same_day (constraints : SchedulingConstraints)
    (events : List NormalizedEvent) (duration startDate endDate : Nat)
    (w : Option WorkWindow) (slot : TimeSlot) (event : NormalizedEvent)
    (hwin : (w.getD ⟨9 * 60, 17 * 60⟩).endMin ≤ 1440)
    (hslot : slot ∈ findFreeSlots constraints events duration startDate endDate w)
    (hev : event ∈ events)
    (hday : event.startTime / 1440 = slot.start / 1440) :
    slot.isAvailable = true ∧
      ¬(slot.start < event.endTime ∧ event.startTime < slot.stop) := by
  obtain ⟨day, hmem⟩ := mem_findFreeSlots hslot
  obtain ⟨_, _, havail, hbusy⟩ := mem_findFreeSlotsForDay hmem
  refine ⟨havail, ?_⟩
  have hsd : slot.start / 1440 = day := slot_day_eq hwin hmem
  have hevday : event ∈ getEventsForDate events day := by
    unfold getEventsForDate
    refine List.mem_filter.mpr ⟨hev, ?_⟩
    simpa using hday.trans hsd
  have hpair : (event.startTime, event.endTime) ∈
      getBusySlots (getEventsForDate events day) := by
    unfold getBusySlots
    exact List.mem_map.mpr ⟨event, hevday, rfl⟩
  simpa using not_overlap_of_not_busy hbusy _ hpair

/-- C2 witness: a Monday 09:30–10:00 event on the slot's own day is
respected — the 09:00–09:30 slot the search returns does not overlap it. -/
theorem slot_validity_same_day_witness :
    (⟨1980, 2010, 30, true⟩ : TimeSlot) ∈
        findFreeSlots {} [mondayEvent] 30 1440 1440 none ∧
      ¬(1980 < mondayEvent.endTime ∧ mondayEvent.startTime < 2010) := by
  refine ⟨by decide, ?_⟩
  exact (slot_validity_same_day {} [mondayEvent] 30 1440 1440 none
    ⟨1980, 2010, 30, true⟩ mondayEvent (by decide) (by decide) (by decide)
    (by decide)).2

/-! ## C9: ranking bound -/

/-- C9: for every snapshot, clock, duration and preference, the ranked
suggestion list is truncated to at most 5 entries at high urgency, 3 at
medium, 2 at low. -/
theorem ranking_bound (constraints : SchedulingConstraints)
    (events : List NormalizedEvent) (nowMin duration : Nat)
    (pref : Option PreferredTime) :
    (suggestOptimalMeetingTimes constraints events nowMin duration pref
        .high).length ≤ 5 ∧
      (suggestOptimalMeetingTimes constraints events nowMin duration pref
        .medium).length ≤ 3 ∧
      (suggestOptimalMeetingTimes constraints events nowMin duration pref
        .low).length ≤ 2 := by
  refine ⟨?_, ?_, ?_⟩ <;>
    · unfold suggestOptimalMeetingTimes suggestionCount
      simp [List.length_take]

/-! ## C10: attendee conflicts without time overlap -/

/-- C10: the availability check lists an event as a conflict (and reports
unavailability) whenever the event shares an attendee with a non-empty
requested attendee set, regardless of any time overlap; with an empty
attendee list exactly the time-overlapping events are conflicts. -/
theorem availability_attendee_conflict (events : List NormalizedEvent)
    (startTime endTime : Nat) (attendees : List String) :
    (∀ event ∈ events, ∀ a ∈ attendees, a ∈ event.attendees →
      (checkAvailability events startTime endTime attendees).1 = false ∧
        event ∈ (checkAvailability events startTime endTime attendees).2) ∧
    (∀ event, event ∈ (checkAvailability events startTime endTime []).2 ↔
      event ∈ events ∧ startTime < event.endTime ∧
        endTime > event.startTime) := by
  constructor
  · intro event hev a ha hshared
    have hlen : 0 < attendees.length := List.length_pos.mpr
      (List.ne_nil_of_mem ha)
    have hpred : (decide (startTime < event.endTime) &&
        decide (endTime > event.startTime) ||
        (decide (attendees.length > 0) &&
          attendees.any (fun attendee => event.attendees.contains attendee)))
          = true := by
      refine Bool.or_eq_true_iff.mpr (Or.inr (Bool.and_eq_true_iff.mpr
        ⟨by simpa using hlen, ?_⟩))
      exact List.any_eq_true.mpr ⟨a, ha, by simpa using hshared⟩
    have hmem : event ∈ (checkAvailability events startTime endTime
        attendees).2 := by
      unfold checkAvailability
      exact List.mem_filter.mpr ⟨hev, hpred⟩
    refine ⟨?_, hmem⟩
    unfold checkAvailability at hmem ⊢
    simpa using List.ne_nil_of_mem hmem
  · intro event
    unfold checkAvailability
    simp [List.mem_filter]

/-- C10 witness: a shared attendee makes the check report a conflict even
though the event (00:00–00:10) does not overlap the requested
100–200 range; and with no attendees given, the same event is not a
conflict. -/
theorem availability_attendee_conflict_witness :
    ((checkAvailability
        [{ id := "e", title := "t", startTime := 0, endTime := 10,
           duration := 10, attendees := ["a@x.com"] }] 100 200
        ["a@x.com"]).1 = false ∧
      { id := "e", title := "t", startTime := 0, endTime := 10,
        duration := 10, attendees := ["a@x.com"] : NormalizedEvent } ∈
        (checkAvailability
          [{ id := "e", title := "t", startTime := 0, endTime := 10,
             duration := 10, attendees := ["a@x.com"] }] 100 200
          ["a@x.com"]).2) ∧
    ¬({ id := "e", title := "t", startTime := 0, endTime := 10,
        duration := 10, attendees := ["a@x.com"] : NormalizedEvent } ∈
        (checkAvailability
          [{ id := "e", title := "t", startTime := 0, endTime := 10,
             duration := 10, attendees := ["a@x.com"] }] 100 200 []).2) := by
  constructor
  · exact (availability_attendee_conflict
      [{ id := "e", title := "t", startTime := 0, endTime := 10,
         duration := 10, attendees := ["a@x.com"] }] 100 200
      ["a@x.com"]).1
      { id := "e", title := "t", startTime := 0, endTime := 10,
        duration := 10, attendees := ["a@x.com"] } (by decide) "a@x.com"
      (by decide) (by decide)
  · intro hmem
    have := ((availability_attendee_conflict
      [{ id := "e", title := "t", startTime := 0, endTime := 10,
         duration := 10, attendees := ["a@x.com"] }] 100 200
      ["a@x.com"]).2
      { id := "e", title := "t", startTime := 0, endTime := 10,
        duration := 10, attendees := ["a@x.com"] }).mp hmem
    exact absurd this.2.1 (by decide)

/-! ## C3 and C4: natural-language date recalculation -/

theorem walkToNextDay_succ (targetDay fuel day : Nat) :
    walkToNextDay targetDay (fuel + 1) day =
      if day % 7 = targetDay then day
      else walkToNextDay targetDay fuel (day + 1) := rfl

/-- From a Monday, the walk to Wednesday (code 3) stops after two days. -/
theorem walkToNextDay_monday_to_wednesday (day : Nat) (h : day % 7 = 1) :
    walkToNextDay 3 7 day = day + 2 := by
  rw [show (7 : Nat) = 6 + 1 from rfl, walkToNextDay_succ,
    if_neg (by omega), show (6 : Nat) = 5 + 1 from rfl, walkToNextDay_succ,
    if_neg (by omega), show (5 : Nat) = 4 + 1 from rfl, walkToNextDay_succ,
    if_pos (by omega)]

/-- Unfolding of `parseNaturalLanguageDate` on a message containing
"next", given the outcome of each scan. -/
theorem parseNaturalLanguageDate_next_eq (nowMin : Nat)
    (userMessage : String) (targetDay rawHour : Nat) (isPM : Bool)
    (dur : Nat)
    (hday : findTargetDay (jsToLower userMessage) = some targetDay)
    (hnext : jsIncludes (jsToLower userMessage) "next" = true)
    (htime : findTimeMatch (jsToLower userMessage).data =
      some (rawHour, isPM))
    (hdur : findDurationMatch (jsToLower userMessage).data = some dur) :
    parseNaturalLanguageDate nowMin userMessage =
      some (walkToNextDay targetDay 7 (nowMin / 1440) * 1440 +
          adjustHour rawHour isPM * 60,
        walkToNextDay targetDay 7 (nowMin / 1440) * 1440 +
          adjustHour rawHour isPM * 60 + dur * 60) := by
  unfold parseNaturalLanguageDate
  dsimp only
  rw [hday, htime, hdur, hnext]
  simp

/-- C3, counterexample: with the clock at Monday 09:00 (instant 1980,
day 1) the message "next Wednesday at 11 AM for 1 hour" recomputes to the
Wednesday **2** days out at 11:00–12:00 (instants 4980–5040), not the
Wednesday 8 days out: the "next" walk starts at today, so it reaches the
coming Wednesday without skipping the current week. -/
theorem date_recalculation_counterexample :
    parseNaturalLanguageDate 1980 "next Wednesday at 11 AM for 1 hour" =
        some (4980, 5040) ∧
      1980 / 1440 % 7 = 1 ∧
      4980 / 1440 = 1980 / 1440 + 2 ∧
      ¬(4980 / 1440 = 1980 / 1440 + 8) := by
  refine ⟨?_, by decide, by decide, by decide⟩
  rfl

/-- C3 (amended): for any clock falling on a Monday, recomputing
"next Wednesday at 11 AM for 1 hour" yields the upcoming Wednesday — two
days out — at 11:00 local time, with the end one hour later at 12:00. -/
theorem date_recalculation_monday (nowMin : Nat)
    (h : nowMin / 1440 % 7 = 1) :
    parseNaturalLanguageDate nowMin "next Wednesday at 11 AM for 1 hour" =
      some ((nowMin / 1440 + 2) * 1440 + 11 * 60,
        (nowMin / 1440 + 2) * 1440 + 12 * 60) := by
  rw [parseNaturalLanguageDate_next_eq nowMin _ 3 11 false 1 (by rfl)
    (by rfl) (by rfl) (by rfl)]
  rw [walkToNextDay_monday_to_wednesday _ h]
  norm_num [adjustHour]

/-- C3 witness: the amended statement applied at the concrete Monday
09:00 clock. -/
theorem date_recalculation_monday_witness :
    1980 / 1440 % 7 = 1 ∧
      parseNaturalLanguageDate 1980 "next Wednesday at 11 AM for 1 hour" =
        some ((1980 / 1440 + 2) * 1440 + 11 * 60,
          (1980 / 1440 + 2) * 1440 + 12 * 60) :=
  ⟨by decide, date_recalculation_monday 1980 (by decide)⟩

/-- C4, counterexample: with the clock already on a Wednesday (instant
4320, day 3), "next Wednesday at 11 AM for 1 hour" resolves to **today**
at 11:00 — the walk starts from today inclusive, so the start is not
strictly later than today and the occurrence is 0 days out, not 7. -/
theorem next_weekday_today_counterexample :
    parseNaturalLanguageDate 4320 "next Wednesday at 11 AM for 1 hour" =
        some (4980, 5040) ∧
      4320 / 1440 % 7 = 3 ∧
      4980 / 1440 = 4320 / 1440 := by
  refine ⟨?_, by decide, by decide⟩
  rfl

/-- C4 (amended): the weekday walk starts from today **inclusive**: for
every message whose first detected weekday equals today's weekday and
every parsed time token, the recomputed start falls on today itself
(today's midnight plus the parsed hour), never 7 days out — regardless of
whether "next" is present. -/
theorem next_weekday_resolves_today (nowMin : Nat) (userMessage : String)
    (targetDay rawHour : Nat) (isPM : Bool) (s e : Nat)
    (hday : findTargetDay (jsToLower userMessage) = some targetDay)
    (hdow : nowMin / 1440 % 7 = targetDay)
    (hparse : parseNaturalLanguageDate nowMin userMessage = some (s, e))
    (htime : findTimeMatch (jsToLower userMessage).data =
      some (rawHour, isPM)) :
    s = nowMin / 1440 * 1440 + adjustHour rawHour isPM * 60 := by
  unfold parseNaturalLanguageDate at hparse
  dsimp only at hparse
  rw [hday, htime] at hparse
  by_cases hnext : jsIncludes (jsToLower userMessage) "next" = true
  · rw [hnext] at hparse
    simp only [if_true] at hparse
    rw [show (7 : Nat) = 6 + 1 from rfl, walkToNextDay_succ, if_pos hdow]
      at hparse
    have hpair := (Option.some.injEq _ _).mp hparse
    injection hpair with h1 _
    omega
  · rw [Bool.not_eq_true] at hnext
    rw [hnext] at hparse
    simp only [Bool.false_eq_true, if_false] at hparse
    have hpair := (Option.some.injEq _ _).mp hparse
    have harith : nowMin / 1440 + (targetDay + 7 - nowMin / 1440 % 7) % 7 =
        nowMin / 1440 := by omega
    rw [harith] at hpair
    injection hpair with h1 _
    omega

/-- C4 witness: the amended statement applied on the concrete Wednesday
clock. -/
theorem next_weekday_resolves_today_witness :
    4320 / 1440 % 7 = 3 ∧
      4980 = 4320 / 1440 * 1440 + adjustHour 11 false * 60 :=
  ⟨by decide,
    next_weekday_resolves_today 4320 "next Wednesday at 11 AM for 1 hour"
      3 11 false 4980 5040 (by rfl) (by decide) (by rfl) (by rfl)⟩

/-! ## C6: explicit recipient lists short-circuit the heuristics -/

/-- C6: whenever the structured `to` argument is a list with more than one
entry, or a comma-containing string, the draft resolves to **group** mode
with exactly the parsed recipients — for every environment, snapshot,
user message and context, since the explicit-recipient check precedes all
phrase heuristics. -/
theorem recipient_group_short_circuit :
    (∀ (env : DispatchEnv) (st : DispatchState) (p : ToolParams)
        (l : List String) (v : ToolValue),
      p.toField = JSArg.list l → 1 < l.length →
      createEmailDraft env st p = .ok v →
      resolvedMode v = "group" ∧ resolvedRecipients v = l) ∧
    (∀ (env : DispatchEnv) (st : DispatchState) (p : ToolParams)
        (s : String) (v : ToolValue),
      p.toField = JSArg.str s → jsIncludes s "," = true →
      createEmailDraft env st p = .ok v →
      resolvedMode v = "group" ∧
        resolvedRecipients v = (jsSplitComma s).map jsTrim) := by
  constructor
  · intro env st p l v hto hlen hok
    unfold createEmailDraft at hok
    rw [hto] at hok
    rw [if_pos (by simpa using hlen)] at hok
    injection hok with hv
    subst hv
    unfold createGroupEmail
    rw [hto]
    exact ⟨rfl, rfl⟩
  · intro env st p s v hto hcomma hok
    unfold createEmailDraft at hok
    rw [hto] at hok
    rw [if_pos (by simpa using hcomma)] at hok
    injection hok with hv
    subst hv
    unfold createGroupEmail
    rw [hto]
    simp [hcomma, resolvedMode, resolvedRecipients]

/-- C6 witness: a two-address list resolves to group mode with those two
recipients, whatever the message and context say. -/
theorem recipient_group_short_circuit_witness :
    resolvedMode (createGroupEmail sampleEnvErr ⟨[], []⟩
        { toField := .list ["a@x.com", "b@x.com"],
          userMessage := some "send one email to each of them separately",
          context := some "email Joe and Dan and Sally individually" })
        = "group" ∧
      resolvedRecipients (createGroupEmail sampleEnvErr ⟨[], []⟩
        { toField := .list ["a@x.com", "b@x.com"],
          userMessage := some "send one email to each of them separately",
          context := some "email Joe and Dan and Sally individually" })
        = ["a@x.com", "b@x.com"] :=
  recipient_group_short_circuit.1 sampleEnvErr ⟨[], []⟩
    { toField := .list ["a@x.com", "b@x.com"],
      userMessage := some "send one email to each of them separately",
      context := some "email Joe and Dan and Sally individually" }
    ["a@x.com", "b@x.com"]
    (createGroupEmail sampleEnvErr ⟨[], []⟩
      { toField := .list ["a@x.com", "b@x.com"],
        userMessage := some "send one email to each of them separately",
        context := some "email Joe and Dan and Sally individually" })
    rfl (by decide) rfl

/-! ## C5: degraded event creation -/

/-- The generated `VCALENDAR` text is never empty. -/
theorem generateSingleEventICS_ne_empty (nowMin : Nat)
    (event : NormalizedEvent) :
    generateSingleEventICS nowMin event ≠ "" := by
  intro h
  have hlen := congrArg String.length h
  rw [show generateSingleEventICS nowMin event =
        "BEGIN:VCALENDAR" ++ "\r\n" ++
          joinSep "\r\n" ["VERSION:2.0", "PRODID:-//Calendar Assistant//EN",
            "CALSCALE:GREGORIAN", "METHOD:PUBLISH",
            generateEventICS nowMin event, "END:VCALENDAR"] from rfl,
      String.length_append, String.length_append] at hlen
  have h15 : ("BEGIN:VCALENDAR" : String).length = 15 := rfl
  have h0 : ("" : String).length = 0 := rfl
  omega

/-- Only `create_email_draft` calls are ever served from the cache; for
every other operation the duplicate lookup misses. -/
theorem checkForDuplicateCall_fst_none {recent : List CacheEntry}
    {nowMs : Nat} {functionName : String} {p : ToolParams}
    (h : functionName ≠ "create_email_draft") :
    (checkForDuplicateCall recent nowMs functionName p).1 = none := by
  unfold checkForDuplicateCall
  dsimp only
  have hpred : ∀ call, duplicatePredicate functionName p call = false := by
    intro call
    unfold duplicatePredicate
    simp [h]
  simp [List.find?_eq_none, hpred]

/-- C5: when the remote create call fails (with any error, e.g. the 403
message), the event-creation operation returns a successful fallback
result — carrying the locally synthesized event id, the calendar
deep-link built from the request, and the (non-empty) ICS text — and the
locally synthesized event is appended to the in-memory snapshot; nothing
is thrown to the caller, and the remote call is consulted exactly once
(no retry exists in the model or the code). -/
theorem event_creation_fallback (env : DispatchEnv) (st : DispatchState)
    (p : ToolParams) (userMessage : Option String) (errMessage : String)
    (hremote : env.remoteCreate = .error errMessage) :
    executeFunction env st "create_calendar_event" p userMessage =
      (.ok (.eventFallback (fallbackEventId env) p.title
          p.startTime.instantMin p.endTime.instantMin
          (p.endTime.instantMin - p.startTime.instantMin)
          (parseAttendeesArg p.attendees)
          (env.ext.createMeetingUrl p.title p.startTime.instantMin
            p.endTime.instantMin (.list (parseAttendeesArg p.attendees))
            p.location p.description)
          (generateSingleEventICS env.nowMin
            (fallbackEvent env p (parseAttendeesArg p.attendees)))
          (makeIcsFilename p.title p.startTime.instantMin)),
       { events := st.events ++
           [fallbackEvent env p (parseAttendeesArg p.attendees)],
         recentFunctionCalls := (checkForDuplicateCall
           st.recentFunctionCalls env.nowMs "create_calendar_event" p).2 }) ∧
    generateSingleEventICS env.nowMin
      (fallbackEvent env p (parseAttendeesArg p.attendees)) ≠ "" := by
  refine ⟨?_, generateSingleEventICS_ne_empty _ _⟩
  obtain ⟨envNowMs, envNowMin, envRemote, envRand, envCons, envExt⟩ := env
  simp only at hremote
  subst hremote
  unfold executeFunction
  dsimp only
  rw [checkForDuplicateCall_fst_none (by decide)]
  by_cases hm : jsFalsyStr userMessage = true
  · rw [if_pos hm]
    rfl
  · rw [if_neg hm]
    rfl

/-- C5 witness: the fallback path evaluated at a concrete 403 failure. -/
theorem event_creation_fallback_witness :
    executeFunction sampleEnvErr ⟨[], []⟩ "create_calendar_event"
        { title := "Team Sync",
          startTime := ⟨"2026-10-14T10:00:00", 20000 * 1440 + 600⟩,
          endTime := ⟨"2026-10-14T11:00:00", 20000 * 1440 + 660⟩,
          attendees := .str "a@x.com,b@x.com" } none =
      (.ok (.eventFallback (fallbackEventId sampleEnvErr) "Team Sync"
          (20000 * 1440 + 600) (20000 * 1440 + 660) 60
          (parseAttendeesArg (.str "a@x.com,b@x.com"))
          (sampleEnvErr.ext.createMeetingUrl "Team Sync"
            (20000 * 1440 + 600) (20000 * 1440 + 660)
            (.list (parseAttendeesArg (.str "a@x.com,b@x.com"))) none none)
          (generateSingleEventICS sampleEnvErr.nowMin
            (fallbackEvent sampleEnvErr
              { title := "Team Sync",
                startTime := ⟨"2026-10-14T10:00:00", 20000 * 1440 + 600⟩,
                endTime := ⟨"2026-10-14T11:00:00", 20000 * 1440 + 660⟩,
                attendees := .str "a@x.com,b@x.com" }
              (parseAttendeesArg (.str "a@x.com,b@x.com"))))
          (makeIcsFilename "Team Sync" (20000 * 1440 + 600))),
       { events := [fallbackEvent sampleEnvErr
           { title := "Team Sync",
             startTime := ⟨"2026-10-14T10:00:00", 20000 * 1440 + 600⟩,
             endTime := ⟨"2026-10-14T11:00:00", 20000 * 1440 + 660⟩,
             attendees := .str "a@x.com,b@x.com" }
           (parseAttendeesArg (.str "a@x.com,b@x.com"))],
         recentFunctionCalls := [] }) ∧
    generateSingleEventICS sampleEnvErr.nowMin
      (fallbackEvent sampleEnvErr
        { title := "Team Sync",
          startTime := ⟨"2026-10-14T10:00:00", 20000 * 1440 + 600⟩,
          endTime := ⟨"2026-10-14T11:00:00", 20000 * 1440 + 660⟩,
          attendees := .str "a@x.com,b@x.com" }
        (parseAttendeesArg (.str "a@x.com,b@x.com"))) ≠ "" := by
  have h := event_creation_fallback sampleEnvErr ⟨[], []⟩
    { title := "Team Sync",
      startTime := ⟨"2026-10-14T10:00:00", 20000 * 1440 + 600⟩,
      endTime := ⟨"2026-10-14T11:00:00", 20000 * 1440 + 660⟩,
      attendees := .str "a@x.com,b@x.com" } none
    "Calendar permissions required." rfl
  exact ⟨h.1, h.2⟩

/-! ## C1: exceptions at the router boundary -/

/-- C1, counterexample: `generate_ics` is registered in the tool catalog,
yet its handler's `No events found with the provided IDs` throw escapes
`executeFunction` as a hard failure — the router catches nothing, so the
unknown-operation error is **not** the only exception crossing the
router's public boundary. -/
theorem router_exception_counterexample :
    (executeFunction sampleEnvErr ⟨[], []⟩ "generate_ics"
        { eventIds := ["missing"] } none).1 =
      .error (.handlerError "No events found with the provided IDs") ∧
    "generate_ics" ∈ toolNames :=
  ⟨rfl, by decide⟩

/-- C1 (amended): the router wraps no handler in a catch: an unregistered
name raises the unknown-operation error, and a handler throw — here
`generate_ics` on an id list matching no snapshot event — propagates to
`executeFunction`'s caller unchanged.  (Only individual handlers such as
`createCalendarEvent` catch their own remote failures internally.) -/
theorem router_error_propagation :
    (∀ (env : DispatchEnv) (st : DispatchState) (p : ToolParams)
        (m : Option String) (name : String),
      name ∉ toolNames →
      (executeFunction env st name p m).1 = .error (.unknownFunction name)) ∧
    (∀ (env : DispatchEnv) (st : DispatchState) (p : ToolParams)
        (m : Option String),
      (st.events.filter (fun e => p.eventIds.contains e.id)).length = 0 →
      (executeFunction env st "generate_ics" p m).1 =
        .error (.handlerError "No events found with the provided IDs")) := by
  constructor
  · intro env st p m name hname
    obtain ⟨h1, h2, h3, h4, h5, h6, h7, h8, h9, h10⟩ :
        ¬name = "fetch_events" ∧ ¬name = "create_email_draft" ∧
        ¬name = "create_meeting_followup" ∧
        ¬name = "suggest_meeting_times" ∧
        ¬name = "generate_productivity_report" ∧
        ¬name = "create_email_template" ∧ ¬name = "optimize_schedule" ∧
        ¬name = "create_calendar_event" ∧ ¬name = "create_calendar_link" ∧
        ¬name = "generate_ics" := by
      simpa [toolNames, not_or] using hname
    unfold executeFunction
    dsimp only
    rw [checkForDuplicateCall_fst_none h2]
    rw [if_neg h1, if_neg h2, if_neg h3, if_neg h4, if_neg h5, if_neg h6,
      if_neg h7, if_neg h8, if_neg h9, if_neg h10]
  · intro env st p m hlen
    unfold executeFunction
    dsimp only
    rw [checkForDuplicateCall_fst_none (by decide)]
    by_cases hm : jsFalsyStr m = true
    · rw [if_pos hm]
      show (generateICSHandler
        { st with recentFunctionCalls := (checkForDuplicateCall
            st.recentFunctionCalls env.nowMs "generate_ics" p).2 } p).1 = _
      unfold generateICSHandler
      rw [if_pos hlen]
    · rw [if_neg hm]
      show (generateICSHandler
        { st with recentFunctionCalls := (checkForDuplicateCall
            st.recentFunctionCalls env.nowMs "generate_ics" p).2 }
        { p with userMessage := m }).1 = _
      unfold generateICSHandler
      rw [if_pos hlen]

/-- C1 witness: both amended parts at concrete inputs — a bogus name
raises the unknown-operation error, and the registered `generate_ics`
propagates its handler throw. -/
theorem router_error_propagation_witness :
    (executeFunction sampleEnvErr ⟨[], []⟩ "bogus_tool" {} none).1 =
        .error (.unknownFunction "bogus_tool") ∧
      (executeFunction sampleEnvErr ⟨[], []⟩ "generate_ics"
          { eventIds := ["nothing"] } none).1 =
        .error (.handlerError "No events found with the provided IDs") :=
  ⟨router_error_propagation.1 sampleEnvErr ⟨[], []⟩ {} none "bogus_tool"
      (by decide),
    router_error_propagation.2 sampleEnvErr ⟨[], []⟩
      { eventIds := ["nothing"] } none rfl⟩

/-! ## C7: duplicate suppression -/

/-- The empty cache yields no duplicate and stays empty. -/
theorem checkForDuplicateCall_nil (nowMs : Nat) (fn : String)
    (p : ToolParams) : checkForDuplicateCall [] nowMs fn p = (none, []) :=
  rfl

/-- `executeFunction` on `create_email_draft`, written as its normal
form: cache consultation, then the draft handler with memoization. -/
theorem executeFunction_email (env : DispatchEnv) (st : DispatchState)
    (p : ToolParams) (m : Option String) :
    executeFunction env st "create_email_draft" p m =
      (let dup := checkForDuplicateCall st.recentFunctionCalls env.nowMs
        "create_email_draft" p
       let st1 : DispatchState := { st with recentFunctionCalls := dup.2 }
       match dup.1 with
       | some cached => (.ok cached, st1)
       | none =>
         let p2 := if jsFalsyStr m then p else { p with userMessage := m }
         match createEmailDraft env st1 p2 with
         | .ok r =>
           (.ok r, { st1 with recentFunctionCalls := (addToRecentCalls
             st1.recentFunctionCalls env.nowMs "create_email_draft" p2 r) })
         | .error e => (.error e, st1)) := rfl

/-- C7: issuing the same e-mail-draft call twice within the 10-second
window, both calls' contexts naming Joe, Dan and Sally, returns on the
second call the identical memoized result of the first call, and leaves
the cache exactly as the first call left it (the handler is not
re-executed: the cached branch returns before any dispatch). -/
theorem duplicate_suppression (env1 env2 : DispatchEnv)
    (st0 st1 : DispatchState) (p1 p2 : ToolParams) (m1 m2 : Option String)
    (v : ToolValue)
    (hempty : st0.recentFunctionCalls = [])
    (hctx1 : tripleNameCheck (p1.context.getD "") = true)
    (hctx2 : tripleNameCheck (p2.context.getD "") = true)
    (hwindow : (env2.nowMs : Int) - 10000 < (env1.nowMs : Int))
    (hfirst : executeFunction env1 st0 "create_email_draft" p1 m1 =
      (.ok v, st1)) :
    executeFunction env2 st1 "create_email_draft" p2 m2 = (.ok v, st1) := by
  have hkeep : decide ((env1.nowMs : Int) > (env2.nowMs : Int) - 10000)
      = true := decide_eq_true (by omega)
  rw [executeFunction_email] at hfirst
  rw [hempty, checkForDuplicateCall_nil] at hfirst
  dsimp only at hfirst
  set p1x := if jsFalsyStr m1 then p1 else { p1 with userMessage := m1 }
    with hp1x
  have hp1c : p1x.context = p1.context := by
    rw [hp1x]; split <;> rfl
  cases hdraft : createEmailDraft env1
      { events := st0.events, recentFunctionCalls := [] } p1x with
  | error e =>
    rw [hdraft] at hfirst
    exact absurd (congrArg Prod.fst hfirst) (by simp)
  | ok r =>
    rw [hdraft] at hfirst
    have hv := congrArg Prod.fst hfirst
    have hst := congrArg Prod.snd hfirst
    dsimp only at hv hst
    injection hv with hv
    subst hv
    rw [show addToRecentCalls [] env1.nowMs "create_email_draft" p1x r =
      [⟨"create_email_draft", p1x, env1.nowMs, r⟩] from rfl] at hst
    subst hst
    rw [executeFunction_email]
    have hdup : checkForDuplicateCall
        [⟨"create_email_draft", p1x, env1.nowMs, r⟩] env2.nowMs
        "create_email_draft" p2 =
        (some r, [⟨"create_email_draft", p1x, env1.nowMs, r⟩]) := by
      unfold checkForDuplicateCall
      simp [hkeep, duplicatePredicate, hp1c, hctx1, hctx2]
    rw [hdup]

/-- C7 fixtures: a group-draft call whose context names the recipient
triple, and a second environment 5 seconds later. -/
def wDupParams : ToolParams :=
  { toField := .list ["a@x.com", "b@x.com"],
    context := some "email for Joe, Dan and Sally about the project" }

/-- The second call's arguments: a different recipient list, but a
context still naming Joe, Dan and Sally. -/
def wDupParams2 : ToolParams :=
  { toField := .list ["c@x.com"],
    context := some "another email for Joe, Dan and Sally" }

/-- The first call's memoized result. -/
def wDupValue : ToolValue := createGroupEmail sampleEnvErr ⟨[], []⟩ wDupParams

/-- The state the first call leaves behind. -/
def wDupState : DispatchState :=
  ⟨[], [⟨"create_email_draft", wDupParams, 1000000, wDupValue⟩]⟩

/-- The clock 5 seconds after `sampleEnvErr`. -/
def sampleEnvErr2 : DispatchEnv := { sampleEnvErr with nowMs := 1005000 }

/-- C7 witness: the suppression applied at a concrete pair of calls. -/
theorem duplicate_suppression_witness :
    executeFunction sampleEnvErr2 wDupState "create_email_draft"
      wDupParams2 none = (.ok wDupValue, wDupState) :=
  duplicate_suppression sampleEnvErr sampleEnvErr2 ⟨[], []⟩ wDupState
    wDupParams wDupParams2 none none wDupValue rfl (by decide) (by decide)
    (by decide) rfl

/-! ## C8: duplicate-call cache lifecycle -/

theorem checkForDuplicateCall_snd (recent : List CacheEntry) (nowMs : Nat)
    (fn : String) (p : ToolParams) :
    (checkForDuplicateCall recent nowMs fn p).2 =
      recent.filter (fun call =>
        decide ((call.timestamp : Int) > (nowMs : Int) - 10000)) := rfl

theorem addToRecentCalls_length_le {recent : List CacheEntry}
    {nowMs : Nat} {fn : String} {p : ToolParams} {v : ToolValue}
    (h : recent.length ≤ 5) :
    (addToRecentCalls recent nowMs fn p v).length ≤ 5 := by
  unfold addToRecentCalls
  dsimp only
  split
  next hgt =>
    simp only [List.length_drop, List.length_append, List.length_singleton]
    omega
  next hle =>
    simp only [List.length_append, List.length_singleton] at hle ⊢
    omega

theorem addToRecentCalls_mem {recent : List CacheEntry} {nowMs : Nat}
    {fn : String} {p : ToolParams} {v : ToolValue} {e : CacheEntry}
    (he : e ∈ addToRecentCalls recent nowMs fn p v) :
    e ∈ recent ∨ e = ⟨fn, p, nowMs, v⟩ := by
  unfold addToRecentCalls at he
  dsimp only at he
  have hmem : e ∈ recent ++ [(⟨fn, p, nowMs, v⟩ : CacheEntry)] := by
    split at he
    · exact List.mem_of_mem_drop he
    · exact he
  simpa using hmem

theorem addToRecentCalls_getLast (recent : List CacheEntry) (nowMs : Nat)
    (fn : String) (p : ToolParams) (v : ToolValue) :
    (addToRecentCalls recent nowMs fn p v).getLast? =
      some ⟨fn, p, nowMs, v⟩ := by
  unfold addToRecentCalls
  dsimp only
  split
  · cases recent with
    | nil => simp_all
    | cons a as =>
      rw [show ((a :: as) ++ [(⟨fn, p, nowMs, v⟩ : CacheEntry)]).drop 1 =
        as ++ [⟨fn, p, nowMs, v⟩] from rfl]
      exact List.getLast?_concat _
  · exact List.getLast?_concat _

/-- Every recipient of the shared snapshot through the router either
leaves the (purged) cache alone, or — only for `create_email_draft` —
appends its call and result to it. -/
theorem executeFunction_recent_cases (env : DispatchEnv)
    (st : DispatchState) (fn : String) (p : ToolParams)
    (m : Option String) :
    ((executeFunction env st fn p m).2).recentFunctionCalls =
        (checkForDuplicateCall st.recentFunctionCalls env.nowMs fn p).2 ∨
      (fn = "create_email_draft" ∧ ∃ p2 r,
        ((executeFunction env st fn p m).2).recentFunctionCalls =
          addToRecentCalls
            (checkForDuplicateCall st.recentFunctionCalls env.nowMs fn p).2
            env.nowMs fn p2 r) := by
  unfold executeFunction
  dsimp only
  cases hdup : (checkForDuplicateCall st.recentFunctionCalls env.nowMs
      fn p).1 with
  | some cached => exact Or.inl rfl
  | none =>
    by_cases h1 : fn = "fetch_events"
    · subst h1; exact Or.inl rfl
    by_cases h2 : fn = "create_email_draft"
    · subst h2
      simp only [String.reduceEq, reduceIte]
      split
      · exact Or.inr ⟨trivial, _, _, rfl⟩
      · exact Or.inl rfl
    by_cases h3 : fn = "create_meeting_followup"
    · subst h3; exact Or.inl rfl
    by_cases h4 : fn = "suggest_meeting_times"
    · subst h4; exact Or.inl rfl
    by_cases h5 : fn = "generate_productivity_report"
    · subst h5; exact Or.inl rfl
    by_cases h6 : fn = "create_email_template"
    · subst h6; exact Or.inl rfl
    by_cases h7 : fn = "optimize_schedule"
    · subst h7; exact Or.inl rfl
    by_cases h8 : fn = "create_calendar_event"
    · subst h8
      simp only [String.reduceEq, reduceIte]
      refine Or.inl ?_
      unfold createCalendarEvent
      dsimp only
      split <;> rfl
    by_cases h9 : fn = "create_calendar_link"
    · subst h9; exact Or.inl rfl
    by_cases h10 : fn = "generate_ics"
    · subst h10
      simp only [String.reduceEq, reduceIte]
      refine Or.inl ?_
      unfold generateICSHandler
      dsimp only
      split <;> (split <;> rfl)
    rw [if_neg h1, if_neg h2, if_neg h3, if_neg h4, if_neg h5, if_neg h6,
      if_neg h7, if_neg h8, if_neg h9, if_neg h10]
    exact Or.inl rfl

/-- C8, counterexample: a successful calendar-event creation (here via the
degraded path of `sampleEnvErr`) inserts **no** entry into the
duplicate-call cache — the insertion step exists only on the e-mail-draft
branch, so "inserted after every side-effecting call … calendar-event
creation alike" fails on the code. -/
theorem cache_insertion_counterexample :
    isOkResult (executeFunction sampleEnvErr ⟨[], []⟩
        "create_calendar_event" { title := "Mtg" } none).1 = true ∧
      ((executeFunction sampleEnvErr ⟨[], []⟩ "create_calendar_event"
        { title := "Mtg" } none).2).recentFunctionCalls = [] :=
  ⟨rfl, rfl⟩

/-- C8 (amended): the cache lifecycle the code actually maintains — the
cache never grows beyond 5 entries; after any call every retained entry
is younger than the 10-second window; calendar-event creation never
inserts (its post-state cache is exactly the purged cache); and a
non-duplicate e-mail-draft call that returns successfully appends an
entry holding the call (with the user message attached) and its result. -/
theorem cache_lifecycle :
    (∀ (env : DispatchEnv) (st : DispatchState) (fn : String)
        (p : ToolParams) (m : Option String),
      st.recentFunctionCalls.length ≤ 5 →
      ((executeFunction env st fn p m).2).recentFunctionCalls.length ≤ 5) ∧
    (∀ (env : DispatchEnv) (st : DispatchState) (fn : String)
        (p : ToolParams) (m : Option String) (e : CacheEntry),
      e ∈ ((executeFunction env st fn p m).2).recentFunctionCalls →
      (e.timestamp : Int) > (env.nowMs : Int) - 10000) ∧
    (∀ (env : DispatchEnv) (st : DispatchState) (p : ToolParams)
        (m : Option String),
      ((executeFunction env st "create_calendar_event" p m).2).recentFunctionCalls =
        (checkForDuplicateCall st.recentFunctionCalls env.nowMs
          "create_calendar_event" p).2) ∧
    (∀ (env : DispatchEnv) (st : DispatchState) (p : ToolParams)
        (m : Option String) (v : ToolValue),
      (executeFunction env st "create_email_draft" p m).1 = .ok v →
      (checkForDuplicateCall st.recentFunctionCalls env.nowMs
        "create_email_draft" p).1 = none →
      ((executeFunction env st "create_email_draft" p m).2).recentFunctionCalls.getLast? =
        some ⟨"create_email_draft",
          (if jsFalsyStr m then p else { p with userMessage := m }),
          env.nowMs, v⟩) := by
  refine ⟨?_, ?_, ?_, ?_⟩
  · intro env st fn p m h
    have hclean : (checkForDuplicateCall st.recentFunctionCalls env.nowMs
        fn p).2.length ≤ 5 := by
      rw [checkForDuplicateCall_snd]
      exact le_trans (List.length_filter_le _ _) h
    rcases executeFunction_recent_cases env st fn p m with hc | ⟨_, p2, r, hc⟩
    · rw [hc]; exact hclean
    · rw [hc]; exact addToRecentCalls_length_le hclean
  · intro env st fn p m e he
    have hclean : ∀ x ∈ (checkForDuplicateCall st.recentFunctionCalls
        env.nowMs fn p).2, ((x : CacheEntry).timestamp : Int) >
          (env.nowMs : Int) - 10000 := by
      intro x hx
      rw [checkForDuplicateCall_snd] at hx
      have := (List.mem_filter.mp hx).2
      simpa using this
    rcases executeFunction_recent_cases env st fn p m with hc | ⟨_, p2, r, hc⟩
    · rw [hc] at he; exact hclean e he
    · rw [hc] at he
      rcases addToRecentCalls_mem he with hold | hnew
      · exact hclean e hold
      · rw [hnew]; dsimp only; omega
  · intro env st p m
    rcases executeFunction_recent_cases env st "create_calendar_event" p m
      with hc | ⟨habs, _⟩
    · exact hc
    · exact absurd habs (by decide)
  · intro env st p m v hok hnone
    rw [executeFunction_email] at hok ⊢
    dsimp only at hok ⊢
    rw [hnone] at hok ⊢
    cases hdraft : createEmailDraft env
        { st with recentFunctionCalls := (checkForDuplicateCall
          st.recentFunctionCalls env.nowMs "create_email_draft" p).2 }
        (if jsFalsyStr m then p else { p with userMessage := m }) with
    | error e =>
      rw [hdraft] at hok
      exact absurd hok (by simp)
    | ok r =>
      rw [hdraft] at hok
      dsimp only at hok ⊢
      injection hok with hok
      subst hok
      exact addToRecentCalls_getLast _ _ _ _ _

/-- C8 witness: the lifecycle applied at concrete calls — the bound and
window hold after a fetch on a 1-entry cache, calendar-event creation
leaves the cache empty, and a concrete e-mail-draft call appends its call
and result as the last cache entry. -/
theorem cache_lifecycle_witness :
    ((executeFunction sampleEnvErr ⟨[], []⟩ "fetch_events" {} none).2).recentFunctionCalls.length ≤ 5 ∧
      ((executeFunction sampleEnvErr ⟨[], []⟩ "create_calendar_event"
          { title := "Mtg" } none).2).recentFunctionCalls =
        (checkForDuplicateCall [] sampleEnvErr.nowMs
          "create_calendar_event" { title := "Mtg" }).2 ∧
      ((executeFunction sampleEnvErr ⟨[], []⟩ "create_email_draft"
          wDupParams none).2).recentFunctionCalls.getLast? =
        some ⟨"create_email_draft", wDupParams, sampleEnvErr.nowMs,
          wDupValue⟩ :=
  ⟨cache_lifecycle.1 sampleEnvErr ⟨[], []⟩ "fetch_events" {} none
      (by decide),
    cache_lifecycle.2.2.1 sampleEnvErr ⟨[], []⟩ { title := "Mtg" } none,
    cache_lifecycle.2.2.2 sampleEnvErr ⟨[], []⟩ wDupParams none wDupValue
      rfl rfl⟩

end CalendarAssistant
